import Mathlib

/-! Win32CaptureSample: the capture-to-display frame pipeline of `SimpleCapture`.

A shallow embedding of `src/Win32CaptureSample/SimpleCapture.cpp`, and the properties of
the frame pipeline proved over it.

The embedding:

* The object state is the record `SimpleCapture`; the members keep their C++ names.  The
  ghost field `trace` is the ordered record of the external calls (D3D11, DXGI,
  Windows.Graphics.Capture) the code has issued so far, each with the arguments the source
  passes.  Interface queries (`GetDXGIInterfaceFromObject`, `guid_of`) are not recorded.
* A member function is a `Step α`: it maps a state to an outcome together with the state
  it leaves behind.  The state is kept on an abnormal exit too: a C++ exception does not
  undo the assignments made before it was thrown.
* `winrt::check_hresult(hr)` throws when `hr` is a failure code.  The code an external call
  returns is an input of the model, `Env.hresult`.  Only the calls that the source wraps in
  `check_hresult` can fail in the model; `Present1`, whose result the source drops, and the
  projected WinRT calls are recorded and go on.  A `ResizeBuffers` that fails leaves the
  swap chain record as it was.
* The handles that `Close` sets to `nullptr` are `Option`s, and so is the frame that
  `TryGetNextFrame` returns.  A member call through a null handle is the outcome
  `Error.access_violation`.
* `SizeInt32` fields are `Int`; `static_cast<uint32_t>` is reduction modulo `2^32`.
  Pixel formats are the numeric values of the enumerations.
* `SimpleCapture.h` is not among the sources.  What the `.cpp` file needs from it
  (`CheckClosed`, `SetPixelFormat`, the member initialisers) is modelled from the
  specification and marked so.
* The compute-shader block of `OnFrameArrived` is work in progress in the source
  (`srv_desc` and `target_uav` are not declared, `Dispatch()` has no arguments).  The
  embedding follows the sequence of calls as written and records no argument the source
  does not determine.

Layout:

Definitions come first: the data model, the member functions, then the runs and predicates
the properties are stated with.  The theorems follow: reasoning rules for `Step`, the
behaviour of `OnFrameArrived` case by case, and last the claims `C1` to `C10`.
-/

namespace Win32CaptureSample

/-! ## Data model -/

/-- The type `winrt::Windows::Graphics::SizeInt32`. -/
structure SizeInt32 where
  Width : Int
  Height : Int
deriving DecidableEq, Repr

/-- The enumeration `DirectXPixelFormat`, by its numeric value. -/
abbrev DirectXPixelFormat := Nat

/-- The enumeration `DXGI_FORMAT`, by its numeric value. -/
abbrev DXGI_FORMAT := Nat

/-- A COM result code, as a signed 32-bit value. -/
abbrev HRESULT := Int

/-- The code `E_INVALIDARG` (0x80070057 read as a signed 32-bit value). -/
def E_INVALIDARG : HRESULT := -2147024809

/-- The test `FAILED(hr)`: failure codes are the negative ones. -/
def FAILED (hr : HRESULT) : Bool := decide (hr < 0)

/-- The conversion `static_cast<uint32_t>(x)` of a signed value. -/
def static_cast_uint32 (x : Int) : Nat := (x % 4294967296).toNat

/-- The conversion `static_cast<DXGI_FORMAT>(f)`: both enumerations share their values. -/
def static_cast_DXGI_FORMAT (f : DirectXPixelFormat) : DXGI_FORMAT := f

/-- The value `D3D_FEATURE_LEVEL_11_0` (0xb000). -/
def D3D_FEATURE_LEVEL_11_0 : Nat := 45056

/-- The flag `D3DCOMPILE_ENABLE_STRICTNESS` (1 << 11). -/
def D3DCOMPILE_ENABLE_STRICTNESS : Nat := 2048

/-- The flag `D3DCOMPILE_DEBUG` (1 << 0). -/
def D3DCOMPILE_DEBUG : Nat := 1

/-- A `GraphicsCaptureItem`: the pipeline reads only its content size. -/
structure GraphicsCaptureItem where
  Size : SizeInt32
deriving DecidableEq, Repr

/-- The device handle; `CompileComputeShader` reads its feature level. -/
structure IDirect3DDevice where
  FeatureLevel : Nat
deriving DecidableEq, Repr

/-- A captured frame: the pipeline reads its content size and its surface. -/
structure Direct3D11CaptureFrame where
  ContentSize : SizeInt32
deriving DecidableEq, Repr

/-- The swap chain: buffer count, buffer dimensions and buffer format. -/
structure IDXGISwapChain1 where
  BufferCount : Nat
  Width : Nat
  Height : Nat
  Format : DXGI_FORMAT
deriving DecidableEq, Repr

/-- The frame pool: the arguments of its latest `Create` / `Recreate`. -/
structure Direct3D11CaptureFramePool where
  PixelFormat : DirectXPixelFormat
  NumberOfBuffers : Nat
  Size : SizeInt32
deriving DecidableEq, Repr

/-- The capture session: whether `StartCapture` has been called on it. -/
structure GraphicsCaptureSession where
  Active : Bool
deriving DecidableEq, Repr

/-- A texture description: what `GetBuffer` hands out for the back buffer. -/
structure ID3D11Texture2D where
  Width : Nat
  Height : Nat
  Format : DXGI_FORMAT
deriving DecidableEq, Repr

/-- A compiled shader blob, identified by what it was compiled from. -/
structure ID3DBlob where
  srcFile : String
  entryPoint : String
  profile : String
deriving DecidableEq, Repr

/-- The composition surface returned by `CreateSurface`: it wraps the swap chain pointer
it was created for. -/
structure ICompositionSurface where
  swapChain : Option IDXGISwapChain1
deriving DecidableEq, Repr

/-- The external calls issued by `SimpleCapture`, with the arguments the source passes. -/
inductive Call where
  | CreateDXGISwapChain (width height : Nat) (format : DXGI_FORMAT) (bufferCount : Nat)
  | FramePoolCreate (pixelFormat : DirectXPixelFormat) (numberOfBuffers : Nat) (size : SizeInt32)
  | CreateCaptureSession
  | FrameArrivedSubscribe
  | SessionStartCapture
  | CreateCompositionSurfaceForSwapChain (swapChain : Option IDXGISwapChain1)
  | SessionClose
  | FramePoolClose
  | ResizeBuffers (bufferCount width height : Nat) (format : DXGI_FORMAT) (flags : Nat)
  | GetBuffer (index : Nat)
  | CopyResource (dst : ID3D11Texture2D) (src : Direct3D11CaptureFrame)
  | CreateShaderResourceView
  | D3DCompileFromFile (srcFile entryPoint profile : String) (flags : Nat)
  | CreateComputeShader (bytecode : ID3DBlob)
  | CSSetShader
  | CSSetShaderResources (startSlot numViews : Nat)
  | CSSetUnorderedAccessView (startSlot numViews : Nat)
  | Dispatch
  | Present1 (syncInterval flags : Nat)
  | FramePoolRecreate (pixelFormat : DirectXPixelFormat) (numberOfBuffers : Nat) (size : SizeInt32)
deriving DecidableEq, Repr

/-- The abnormal exits of a member function. -/
inductive Error where
  /-- A `winrt::hresult_error` thrown by `winrt::check_hresult`. -/
  | hresult_error (hr : HRESULT)
  /-- The closed-pipeline error thrown by `CheckClosed`. -/
  | closed
  /-- A member call through a null handle. -/
  | access_violation
deriving DecidableEq, Repr

/-- The environment of a run: the result code of every checked external call, and
whether the build defines `DEBUG` / `_DEBUG`. -/
structure Env where
  hresult : Call → HRESULT
  debugBuild : Bool

/-- The members of `class SimpleCapture` that `SimpleCapture.cpp` reads or writes, and the
ghost `trace` of external calls. -/
structure SimpleCapture where
  m_item : Option GraphicsCaptureItem
  m_framePool : Option Direct3D11CaptureFramePool
  m_session : Option GraphicsCaptureSession
  m_lastSize : SizeInt32
  m_device : IDirect3DDevice
  m_swapChain : Option IDXGISwapChain1
  m_pixelFormat : DirectXPixelFormat
  m_pixelFormatUpdate : Option DirectXPixelFormat
  m_closed : Bool
  trace : List Call
deriving DecidableEq, Repr

/-! ## Member functions as state transformers -/

/-- A member function: from a state to its outcome and the state left behind. -/
def Step (α : Type) : Type := SimpleCapture → Except Error α × SimpleCapture

/-- Sequencing: the second part runs only when the first returned normally. -/
def Step.bind {α β : Type} (m : Step α) (f : α → Step β) : Step β := fun s =>
  match m s with
  | (Except.ok a, s1) => f a s1
  | (Except.error e, s1) => (Except.error e, s1)

instance : Monad Step where
  pure a := fun s => (Except.ok a, s)
  bind := Step.bind

/-- An abnormal exit. -/
def raise {α : Type} (e : Error) : Step α := fun s => (Except.error e, s)

/-- Reads the current state. -/
def getState : Step SimpleCapture := fun s => (Except.ok s, s)

/-- Replaces the current state. -/
def setState (s1 : SimpleCapture) : Step Unit := fun _ => (Except.ok (), s1)

/-- Records an external call in the trace. -/
def emit (c : Call) : Step Unit := fun s => (Except.ok (), { s with trace := s.trace ++ [c] })

/-- The helper `winrt::check_hresult`: throws on a failure code. -/
def check_hresult (hr : HRESULT) : Step Unit :=
  if FAILED hr then raise (Error.hresult_error hr) else pure ()

/-- A member access `h->...` / `h.Method(...)` through a handle: a null handle faults. -/
def deref {α : Type} (h : Option α) : Step α :=
  match h with
  | none => raise Error.access_violation
  | some a => pure a

/-- Modelled from the spec: `CheckClosed` is declared in `SimpleCapture.h`, which is not
among the sources.  Per the lifecycle guard, a public operation "first checks the closed
flag and fails with a closed error if already closed". -/
def SimpleCapture.CheckClosed : Step Unit := do
  let s ← getState
  if s.m_closed then raise Error.closed else pure ()

/-- Modelled from the spec: the member initialisers of `m_closed` and
`m_pixelFormatUpdate` are in `SimpleCapture.h`, which is not among the sources.  A fresh
pipeline is not closed and has an empty pending pixel-format slot. -/
def SimpleCapture.memberInit : Bool × Option DirectXPixelFormat := (false, none)

/-- Modelled from the spec: `SetPixelFormat` is defined in `SimpleCapture.h`, which is not
among the sources.  A format change request "is a single-slot, last-writer-wins pending
value", and format updates are among the public operations that first check the closed
flag. -/
def SimpleCapture.SetPixelFormat (pixelFormat : DirectXPixelFormat) : Step Unit := do
  SimpleCapture.CheckClosed
  let s ← getState
  setState { s with m_pixelFormatUpdate := some pixelFormat }

set_option linter.dupNamespace false in
/-- The constructor `SimpleCapture::SimpleCapture(device, item, pixelFormat)`. -/
def SimpleCapture.SimpleCapture (device : IDirect3DDevice) (item : GraphicsCaptureItem)
    (pixelFormat : DirectXPixelFormat) : SimpleCapture :=
  let width := static_cast_uint32 item.Size.Width
  let height := static_cast_uint32 item.Size.Height
  let format := static_cast_DXGI_FORMAT pixelFormat
  { m_item := some item
    m_device := device
    m_pixelFormat := pixelFormat
    m_swapChain := some { BufferCount := 2, Width := width, Height := height, Format := format }
    m_framePool := some { PixelFormat := pixelFormat, NumberOfBuffers := 2, Size := item.Size }
    m_session := some { Active := false }
    m_lastSize := item.Size
    m_closed := SimpleCapture.memberInit.1
    m_pixelFormatUpdate := SimpleCapture.memberInit.2
    trace := [Call.CreateDXGISwapChain width height format 2,
              Call.FramePoolCreate pixelFormat 2 item.Size,
              Call.CreateCaptureSession,
              Call.FrameArrivedSubscribe] }

/-- The member `SimpleCapture::StartCapture()`. -/
def SimpleCapture.StartCapture : Step Unit := do
  SimpleCapture.CheckClosed
  let s ← getState
  let _ ← deref s.m_session
  emit Call.SessionStartCapture
  let s1 ← getState
  setState { s1 with m_session := some { Active := true } }

/-- The member `SimpleCapture::CreateSurface(compositor)`. -/
def SimpleCapture.CreateSurface : Step ICompositionSurface := do
  SimpleCapture.CheckClosed
  let s ← getState
  emit (Call.CreateCompositionSurfaceForSwapChain s.m_swapChain)
  pure { swapChain := s.m_swapChain }

/-- The member `SimpleCapture::Close()`.  The `compare_exchange_strong(expected, true)` with
`expected = false` succeeds exactly when the flag is `false`, and then sets it. -/
def SimpleCapture.Close : Step Unit := do
  let s ← getState
  if s.m_closed = false then
    setState { s with m_closed := true }
    let _ ← deref s.m_session
    emit Call.SessionClose
    let _ ← deref s.m_framePool
    emit Call.FramePoolClose
    let s1 ← getState
    setState { s1 with m_swapChain := none, m_framePool := none, m_session := none, m_item := none }
  else
    pure ()

/-- The member `SimpleCapture::ResizeSwapChain()`. -/
def SimpleCapture.ResizeSwapChain (env : Env) : Step Unit := do
  let s ← getState
  let _ ← deref s.m_swapChain
  let width := static_cast_uint32 s.m_lastSize.Width
  let height := static_cast_uint32 s.m_lastSize.Height
  let format := static_cast_DXGI_FORMAT s.m_pixelFormat
  emit (Call.ResizeBuffers 2 width height format 0)
  check_hresult (env.hresult (Call.ResizeBuffers 2 width height format 0))
  let s1 ← getState
  setState { s1 with
    m_swapChain := some { BufferCount := 2, Width := width, Height := height, Format := format } }

/-- The member `SimpleCapture::TryResizeSwapChain(frame)`. -/
def SimpleCapture.TryResizeSwapChain (env : Env) (frame : Option Direct3D11CaptureFrame) :
    Step Bool := do
  let fr ← deref frame
  let contentSize := fr.ContentSize
  let s ← getState
  if contentSize.Width ≠ s.m_lastSize.Width ∨ contentSize.Height ≠ s.m_lastSize.Height then
    setState { s with m_lastSize := contentSize }
    SimpleCapture.ResizeSwapChain env
    pure true
  else
    pure false

/-- The member `SimpleCapture::TryUpdatePixelFormat()`.  The `exchange(std::nullopt)`
empties the pending slot and hands out what it held. -/
def SimpleCapture.TryUpdatePixelFormat (env : Env) : Step Bool := do
  let s ← getState
  let newFormat := s.m_pixelFormatUpdate
  setState { s with m_pixelFormatUpdate := none }
  match newFormat with
  | some pixelFormat =>
    if pixelFormat ≠ s.m_pixelFormat then
      let s1 ← getState
      setState { s1 with m_pixelFormat := pixelFormat }
      SimpleCapture.ResizeSwapChain env
      pure true
    else
      pure false
  | none => pure false

/-- The member `SimpleCapture::CompileComputeShader(srcFile, entryPoint, device, blob)`.
A null pointer argument is `none`; `blob` tells whether the out-pointer is non-null.  The
result is the returned code and the value left in `*blob`. -/
def SimpleCapture.CompileComputeShader (env : Env) (srcFile entryPoint : Option String)
    (device : Option IDirect3DDevice) (blob : Bool) : Step (HRESULT × Option ID3DBlob) := do
  match srcFile, entryPoint, device, blob with
  | some src, some entry, some dev, true =>
    let flags :=
      if env.debugBuild then D3DCOMPILE_ENABLE_STRICTNESS ||| D3DCOMPILE_DEBUG
      else D3DCOMPILE_ENABLE_STRICTNESS
    let profile := if dev.FeatureLevel ≥ D3D_FEATURE_LEVEL_11_0 then "cs_5_0" else "cs_4_0"
    emit (Call.D3DCompileFromFile src entry profile flags)
    let hr := env.hresult (Call.D3DCompileFromFile src entry profile flags)
    if FAILED hr then
      pure (hr, none)
    else
      pure (hr, some { srcFile := src, entryPoint := entry, profile := profile })
  | _, _, _, _ => pure (E_INVALIDARG, none)

/-- The member `SimpleCapture::OnFrameArrived(sender, _)`.  The argument `frame` is what
`sender.TryGetNextFrame()` returns for this notification. -/
def SimpleCapture.OnFrameArrived (env : Env) (frame : Option Direct3D11CaptureFrame) :
    Step Unit := do
  let swapChainResizedToFrame ← SimpleCapture.TryResizeSwapChain env frame
  -- m_swapChain->GetBuffer(0, ...)
  let s ← getState
  let sc ← deref s.m_swapChain
  emit (Call.GetBuffer 0)
  check_hresult (env.hresult (Call.GetBuffer 0))
  let backBuffer : ID3D11Texture2D :=
    { Width := sc.Width, Height := sc.Height, Format := sc.Format }
  -- frame.Surface()
  let surfaceTexture ← deref frame
  emit (Call.CopyResource backBuffer surfaceTexture)
  -- compute shader
  let device := s.m_device
  emit Call.CreateShaderResourceView
  check_hresult (env.hresult Call.CreateShaderResourceView)
  let compiled ←
    SimpleCapture.CompileComputeShader env (some "ExampleCompute.hlsl") (some "CSMain")
      (some device) true
  check_hresult compiled.1
  -- csBlob->GetBufferPointer()
  let csBlob ← deref compiled.2
  emit (Call.CreateComputeShader csBlob)
  check_hresult (env.hresult (Call.CreateComputeShader csBlob))
  emit Call.CSSetShader
  emit (Call.CSSetShaderResources 0 1)
  emit (Call.CSSetUnorderedAccessView 0 1)
  emit Call.Dispatch
  -- present
  emit (Call.Present1 1 0)
  let updated ← (if swapChainResizedToFrame then pure true
    else SimpleCapture.TryUpdatePixelFormat env)
  if updated then
    let s2 ← getState
    let _ ← deref s2.m_framePool
    emit (Call.FramePoolRecreate s2.m_pixelFormat 2 s2.m_lastSize)
    let s3 ← getState
    setState { s3 with
      m_framePool := some { PixelFormat := s2.m_pixelFormat, NumberOfBuffers := 2,
                            Size := s2.m_lastSize } }
  else
    pure ()

/-! ## Runs, and the predicates the properties are stated with -/

/-- A finite sequence of frame-arrived notifications, delivered one after the other; the
list holds what `TryGetNextFrame` returns for each of them.  A notification that ends
abnormally ends the run. -/
def notifications (env : Env) : List (Option Direct3D11CaptureFrame) → Step Unit
  | [] => pure ()
  | frame :: rest => do
    SimpleCapture.OnFrameArrived env frame
    notifications env rest

/-- A sequence of `SetPixelFormat` calls, in the order they are issued.  A call that fails
ends the sequence. -/
def setPixelFormats : List DirectXPixelFormat → Step Unit
  | [] => pure ()
  | f :: rest => do
    SimpleCapture.SetPixelFormat f
    setPixelFormats rest

/-- A sequence of `n` calls of `Close`.  A call that faults ends the sequence. -/
def closeTimes : Nat → Step Unit
  | 0 => pure ()
  | n + 1 => do
    SimpleCapture.Close
    closeTimes n

/-- Every checked external call returns a success code. -/
def Env.Succeeds (env : Env) : Prop := ∀ c : Call, 0 ≤ env.hresult c

/-- Every `ResizeBuffers` call returns a success code. -/
def Env.ResizeSucceeds (env : Env) : Prop :=
  ∀ n w h f fl, 0 ≤ env.hresult (Call.ResizeBuffers n w h f fl)

/-- Recognises a swap-chain resize. -/
def Call.isResizeBuffers : Call → Bool
  | Call.ResizeBuffers _ _ _ _ _ => true
  | _ => false

/-- Recognises the copy of the captured surface into the back buffer. -/
def Call.isCopyResource : Call → Bool
  | Call.CopyResource _ _ => true
  | _ => false

/-- Recognises a present. -/
def Call.isPresent1 : Call → Bool
  | Call.Present1 _ _ => true
  | _ => false

/-- Recognises a frame-pool recreation. -/
def Call.isFramePoolRecreate : Call → Bool
  | Call.FramePoolRecreate _ _ _ => true
  | _ => false

/-- Recognises a shader compilation. -/
def Call.isD3DCompileFromFile : Call → Bool
  | Call.D3DCompileFromFile _ _ _ _ => true
  | _ => false

/-- Recognises a compute-shader creation. -/
def Call.isCreateComputeShader : Call → Bool
  | Call.CreateComputeShader _ => true
  | _ => false

/-- The calls that act on the presentation surface or on the frame pool: resize, copy,
present and pool recreation. -/
def Call.isSurfaceCall (c : Call) : Bool :=
  c.isResizeBuffers || c.isCopyResource || c.isPresent1 || c.isFramePoolRecreate

/-- The pixel format a resize or a pool recreation is passed, if the call is one of them. -/
def Call.formatPassed : Call → Option DirectXPixelFormat
  | Call.ResizeBuffers _ _ _ format _ => some format
  | Call.FramePoolRecreate pixelFormat _ _ => some pixelFormat
  | _ => none

/-- The swap chain exists, its width and height equal `m_lastSize` (as cast to `uint32_t`)
and its format equals `m_pixelFormat`. -/
def SurfaceInvariant (s : SimpleCapture) : Prop :=
  ∃ sc, s.m_swapChain = some sc ∧
    sc.Width = static_cast_uint32 s.m_lastSize.Width ∧
    sc.Height = static_cast_uint32 s.m_lastSize.Height ∧
    sc.Format = static_cast_DXGI_FORMAT s.m_pixelFormat

instance (s : SimpleCapture) : Decidable (SurfaceInvariant s) :=
  match h : s.m_swapChain with
  | none => isFalse (fun ⟨_, hsc, _⟩ => by rw [h] at hsc; cases hsc)
  | some sc =>
    if hw : sc.Width = static_cast_uint32 s.m_lastSize.Width ∧
        sc.Height = static_cast_uint32 s.m_lastSize.Height ∧
        sc.Format = static_cast_DXGI_FORMAT s.m_pixelFormat then
      isTrue ⟨sc, h, hw⟩
    else
      isFalse (fun ⟨_, hsc, hrest⟩ => by rw [h] at hsc; cases hsc; exact hw hrest)

/-- While the pipeline is not closed, its session, frame pool and swap chain are non-null. -/
def WellFormed (s : SimpleCapture) : Prop :=
  s.m_closed = false → s.m_session ≠ none ∧ s.m_framePool ≠ none ∧ s.m_swapChain ≠ none

instance (s : SimpleCapture) : Decidable (WellFormed s) := by
  unfold WellFormed
  infer_instance

/-- The states the pipeline can be in: the constructed one, and those the public
operations and the frame-arrived callback lead to, whatever their outcome. -/
inductive Reachable (env : Env) : SimpleCapture → Prop where
  | construct (device : IDirect3DDevice) (item : GraphicsCaptureItem)
      (pixelFormat : DirectXPixelFormat) :
      Reachable env (SimpleCapture.SimpleCapture device item pixelFormat)
  | startCapture {s : SimpleCapture} :
      Reachable env s → Reachable env (SimpleCapture.StartCapture s).2
  | createSurface {s : SimpleCapture} :
      Reachable env s → Reachable env (SimpleCapture.CreateSurface s).2
  | setPixelFormat {s : SimpleCapture} (f : DirectXPixelFormat) :
      Reachable env s → Reachable env (SimpleCapture.SetPixelFormat f s).2
  | onFrameArrived {s : SimpleCapture} (frame : Option Direct3D11CaptureFrame) :
      Reachable env s → Reachable env (SimpleCapture.OnFrameArrived env frame s).2
  | close {s : SimpleCapture} :
      Reachable env s → Reachable env (SimpleCapture.Close s).2

/-- From `s` to `s1` the closed flag is unchanged and no live handle has become null. -/
def HandlesKept (s s1 : SimpleCapture) : Prop :=
  s1.m_closed = s.m_closed ∧
  (s.m_session ≠ none → s1.m_session ≠ none) ∧
  (s.m_framePool ≠ none → s1.m_framePool ≠ none) ∧
  (s.m_swapChain ≠ none → s1.m_swapChain ≠ none)

/-- The state with its call trace erased: the members alone. -/
def members (s : SimpleCapture) : SimpleCapture := { s with trace := [] }

/-- The postcondition `Q` holds of the outcome and final state of `m` run from `s`. -/
def Step.Post {α : Type} (m : Step α) (s : SimpleCapture)
    (Q : Except Error α → SimpleCapture → Prop) : Prop :=
  Q (m s).1 (m s).2

/-- The step `m` maintains the state predicate `P`, whatever its outcome. -/
def Step.Maintains {α : Type} (m : Step α) (P : SimpleCapture → Prop) : Prop :=
  ∀ s, P s → P (m s).2

/-- The shader profile `CompileComputeShader` selects for a device. -/
def shaderProfile (device : IDirect3DDevice) : String :=
  if device.FeatureLevel ≥ D3D_FEATURE_LEVEL_11_0 then "cs_5_0" else "cs_4_0"

/-- The compile flags `CompileComputeShader` passes. -/
def compileFlags (env : Env) : Nat :=
  if env.debugBuild then D3DCOMPILE_ENABLE_STRICTNESS ||| D3DCOMPILE_DEBUG
  else D3DCOMPILE_ENABLE_STRICTNESS

/-- The calls of one notification from `GetBuffer` up to `Present1`, when every checked
call succeeds. -/
def frameCalls (env : Env) (device : IDirect3DDevice) (backBuffer : ID3D11Texture2D)
    (frame : Direct3D11CaptureFrame) : List Call :=
  [Call.GetBuffer 0,
   Call.CopyResource backBuffer frame,
   Call.CreateShaderResourceView,
   Call.D3DCompileFromFile "ExampleCompute.hlsl" "CSMain" (shaderProfile device) (compileFlags env),
   Call.CreateComputeShader
     { srcFile := "ExampleCompute.hlsl", entryPoint := "CSMain", profile := shaderProfile device },
   Call.CSSetShader,
   Call.CSSetShaderResources 0 1,
   Call.CSSetUnorderedAccessView 0 1,
   Call.Dispatch,
   Call.Present1 1 0]

/-- The part of `OnFrameArrived` between the size check and the pixel-format check. -/
def presentFrame (env : Env) (frame : Option Direct3D11CaptureFrame) : Step Unit := do
  let s ← getState
  let sc ← deref s.m_swapChain
  emit (Call.GetBuffer 0)
  check_hresult (env.hresult (Call.GetBuffer 0))
  let backBuffer : ID3D11Texture2D :=
    { Width := sc.Width, Height := sc.Height, Format := sc.Format }
  let surfaceTexture ← deref frame
  emit (Call.CopyResource backBuffer surfaceTexture)
  let device := s.m_device
  emit Call.CreateShaderResourceView
  check_hresult (env.hresult Call.CreateShaderResourceView)
  let compiled ←
    SimpleCapture.CompileComputeShader env (some "ExampleCompute.hlsl") (some "CSMain")
      (some device) true
  check_hresult compiled.1
  let csBlob ← deref compiled.2
  emit (Call.CreateComputeShader csBlob)
  check_hresult (env.hresult (Call.CreateComputeShader csBlob))
  emit Call.CSSetShader
  emit (Call.CSSetShaderResources 0 1)
  emit (Call.CSSetUnorderedAccessView 0 1)
  emit Call.Dispatch
  emit (Call.Present1 1 0)

/-- The part of `OnFrameArrived` after `Present1`. -/
def recreatePool (env : Env) (swapChainResizedToFrame : Bool) : Step Unit := do
  let updated ← (if swapChainResizedToFrame then pure true
    else SimpleCapture.TryUpdatePixelFormat env)
  if updated then
    let s2 ← getState
    let _ ← deref s2.m_framePool
    emit (Call.FramePoolRecreate s2.m_pixelFormat 2 s2.m_lastSize)
    let s3 ← getState
    setState { s3 with
      m_framePool := some { PixelFormat := s2.m_pixelFormat, NumberOfBuffers := 2,
                            Size := s2.m_lastSize } }
  else
    pure ()

/-! ## A sample run: the scenario of an 800×600 item captured in format 87
(`B8G8R8A8UIntNormalized`), with every external call succeeding -/

/-- An environment in which every external call returns `S_OK`, release build. -/
def sampleEnv : Env := { hresult := fun _ => 0, debugBuild := false }

/-- A feature level 11_0 device. -/
def sampleDevice : IDirect3DDevice := { FeatureLevel := 45056 }

/-- The pipeline right after construction on an 800×600 item with format 87. -/
def sampleState : SimpleCapture :=
  SimpleCapture.SimpleCapture sampleDevice { Size := { Width := 800, Height := 600 } } 87

/-- A frame of the unchanged size 800×600. -/
def frame800 : Direct3D11CaptureFrame := { ContentSize := { Width := 800, Height := 600 } }

/-- A frame of the new size 1024×768. -/
def frame1024 : Direct3D11CaptureFrame := { ContentSize := { Width := 1024, Height := 768 } }

/-! ## Reasoning rules for steps -/

theorem Step.bind_apply {α β : Type} (m : Step α) (f : α → Step β) (s : SimpleCapture) :
    (m >>= f) s = match m s with
      | (Except.ok a, s1) => f a s1
      | (Except.error e, s1) => (Except.error e, s1) := rfl

theorem Step.pure_apply {α : Type} (a : α) (s : SimpleCapture) :
    (pure a : Step α) s = (Except.ok a, s) := rfl

theorem Step.bind_assoc {α β γ : Type} (m : Step α) (f : α → Step β) (g : β → Step γ) :
    (m >>= f) >>= g = m >>= fun a => f a >>= g := by
  funext s
  simp only [Step.bind_apply]
  rcases h : m s with ⟨r, s1⟩
  cases r <;> simp

theorem Step.post_bind {α β : Type} (m : Step α) (f : α → Step β) (s : SimpleCapture)
    (Q : Except Error β → SimpleCapture → Prop) :
    (m >>= f).Post s Q ↔ m.Post s (fun r s1 =>
      match r with
      | Except.ok a => (f a).Post s1 Q
      | Except.error e => Q (Except.error e) s1) := by
  unfold Step.Post
  rw [Step.bind_apply]
  rcases h : m s with ⟨r, s1⟩
  cases r <;> simp

theorem Step.post_pure {α : Type} (a : α) (s : SimpleCapture)
    (Q : Except Error α → SimpleCapture → Prop) :
    (pure a : Step α).Post s Q ↔ Q (Except.ok a) s := Iff.rfl

theorem Step.post_raise {α : Type} (e : Error) (s : SimpleCapture)
    (Q : Except Error α → SimpleCapture → Prop) :
    (raise e : Step α).Post s Q ↔ Q (Except.error e) s := Iff.rfl

theorem Step.post_getState (s : SimpleCapture)
    (Q : Except Error SimpleCapture → SimpleCapture → Prop) :
    getState.Post s Q ↔ Q (Except.ok s) s := Iff.rfl

theorem Step.post_setState (s1 s : SimpleCapture)
    (Q : Except Error Unit → SimpleCapture → Prop) :
    (setState s1).Post s Q ↔ Q (Except.ok ()) s1 := Iff.rfl

theorem Step.post_emit (c : Call) (s : SimpleCapture)
    (Q : Except Error Unit → SimpleCapture → Prop) :
    (emit c).Post s Q ↔ Q (Except.ok ()) { s with trace := s.trace ++ [c] } := Iff.rfl

theorem Step.post_ite {α : Type} (c : Prop) [Decidable c] (m1 m2 : Step α) (s : SimpleCapture)
    (Q : Except Error α → SimpleCapture → Prop) :
    (if c then m1 else m2).Post s Q ↔ (c → m1.Post s Q) ∧ (¬ c → m2.Post s Q) := by
  by_cases h : c <;> simp [h]

theorem Step.post_deref {α : Type} (h : Option α) (s : SimpleCapture)
    (Q : Except Error α → SimpleCapture → Prop) :
    (deref h).Post s Q ↔
      (h = none → Q (Except.error Error.access_violation) s) ∧
      (∀ a, h = some a → Q (Except.ok a) s) := by
  cases h <;> simp [deref, Step.post_raise, Step.post_pure]

theorem Step.post_check_hresult (hr : HRESULT) (s : SimpleCapture)
    (Q : Except Error Unit → SimpleCapture → Prop) :
    (check_hresult hr).Post s Q ↔
      (hr < 0 → Q (Except.error (Error.hresult_error hr)) s) ∧ (¬ hr < 0 → Q (Except.ok ()) s) := by
  unfold check_hresult FAILED
  by_cases h : hr < 0 <;> simp [h, Step.post_raise, Step.post_pure]

theorem Step.maintains_bind {α β : Type} (m : Step α) (f : α → Step β)
    (P : SimpleCapture → Prop) (hm : m.Maintains P) (hf : ∀ a, (f a).Maintains P) :
    (m >>= f).Maintains P := by
  intro s hs
  have h1 := hm s hs
  rw [Step.bind_apply]
  rcases h : m s with ⟨r, s1⟩
  rw [h] at h1
  cases r with
  | error e => exact h1
  | ok a => exact hf a s1 h1

theorem Step.maintains_of_post {α : Type} (m : Step α) (P : SimpleCapture → Prop)
    (h : ∀ s, P s → m.Post s (fun _ s1 => P s1)) : m.Maintains P := h

theorem OnFrameArrived_eq (env : Env) (frame : Option Direct3D11CaptureFrame) :
    SimpleCapture.OnFrameArrived env frame =
      (SimpleCapture.TryResizeSwapChain env frame >>= fun b =>
        presentFrame env frame >>= fun _ => recreatePool env b) := by
  simp only [SimpleCapture.OnFrameArrived, presentFrame, recreatePool, Step.bind_assoc]

/-! ## `OnFrameArrived` when every checked call succeeds -/

theorem Env.Succeeds.not_failed {env : Env} (henv : env.Succeeds) (c : Call) :
    ¬ env.hresult c < 0 := not_lt.mpr (henv c)

/-- In the sample environment every call succeeds. -/
theorem sampleEnv_succeeds : sampleEnv.Succeeds := fun _ => le_refl _

/-- A frame of a new size: resize, present, recreate the pool. -/
theorem OnFrameArrived_resized (env : Env) (henv : env.Succeeds) (s : SimpleCapture)
    (sc : IDXGISwapChain1) (pool : Direct3D11CaptureFramePool) (fr : Direct3D11CaptureFrame)
    (hsc : s.m_swapChain = some sc) (hpool : s.m_framePool = some pool)
    (hsize : fr.ContentSize.Width ≠ s.m_lastSize.Width ∨
      fr.ContentSize.Height ≠ s.m_lastSize.Height) :
    SimpleCapture.OnFrameArrived env (some fr) s =
      (Except.ok (), { s with
        m_lastSize := fr.ContentSize
        m_swapChain := some { BufferCount := 2, Width := static_cast_uint32 fr.ContentSize.Width,
                              Height := static_cast_uint32 fr.ContentSize.Height,
                              Format := static_cast_DXGI_FORMAT s.m_pixelFormat }
        m_framePool := some { PixelFormat := s.m_pixelFormat, NumberOfBuffers := 2,
                              Size := fr.ContentSize }
        trace := s.trace ++
          (Call.ResizeBuffers 2 (static_cast_uint32 fr.ContentSize.Width)
            (static_cast_uint32 fr.ContentSize.Height) (static_cast_DXGI_FORMAT s.m_pixelFormat) 0 ::
           frameCalls env s.m_device
             { Width := static_cast_uint32 fr.ContentSize.Width,
               Height := static_cast_uint32 fr.ContentSize.Height,
               Format := static_cast_DXGI_FORMAT s.m_pixelFormat } fr ++
           [Call.FramePoolRecreate s.m_pixelFormat 2 fr.ContentSize]) }) := by
  have h := henv.not_failed
  simp [SimpleCapture.OnFrameArrived, SimpleCapture.TryResizeSwapChain,
    SimpleCapture.ResizeSwapChain, SimpleCapture.CompileComputeShader,
    Step.bind_apply, Step.pure_apply, getState, setState, emit, deref,
    check_hresult, FAILED, raise, hsc, hpool, hsize, h, frameCalls, shaderProfile, compileFlags]

/-- A frame of the current size while a different format is pending: present, then
resize to the new format and recreate the pool. -/
theorem OnFrameArrived_updated (env : Env) (henv : env.Succeeds) (s : SimpleCapture)
    (sc : IDXGISwapChain1) (pool : Direct3D11CaptureFramePool) (fr : Direct3D11CaptureFrame)
    (f : DirectXPixelFormat)
    (hsc : s.m_swapChain = some sc) (hpool : s.m_framePool = some pool)
    (hsize : fr.ContentSize = s.m_lastSize)
    (hpending : s.m_pixelFormatUpdate = some f) (hne : f ≠ s.m_pixelFormat) :
    SimpleCapture.OnFrameArrived env (some fr) s =
      (Except.ok (), { s with
        m_pixelFormat := f
        m_pixelFormatUpdate := none
        m_swapChain := some { BufferCount := 2, Width := static_cast_uint32 s.m_lastSize.Width,
                              Height := static_cast_uint32 s.m_lastSize.Height,
                              Format := static_cast_DXGI_FORMAT f }
        m_framePool := some { PixelFormat := f, NumberOfBuffers := 2, Size := s.m_lastSize }
        trace := s.trace ++
          (frameCalls env s.m_device
             { Width := sc.Width, Height := sc.Height, Format := sc.Format } fr ++
           [Call.ResizeBuffers 2 (static_cast_uint32 s.m_lastSize.Width)
              (static_cast_uint32 s.m_lastSize.Height) (static_cast_DXGI_FORMAT f) 0,
            Call.FramePoolRecreate f 2 s.m_lastSize]) }) := by
  have h := henv.not_failed
  simp [SimpleCapture.OnFrameArrived, SimpleCapture.TryResizeSwapChain,
    SimpleCapture.TryUpdatePixelFormat,
    SimpleCapture.ResizeSwapChain, SimpleCapture.CompileComputeShader,
    Step.bind_apply, Step.pure_apply, getState, setState, emit, deref,
    check_hresult, FAILED, raise, hsc, hpool, hsize, hpending, hne, h, frameCalls,
    shaderProfile, compileFlags]

/-- A frame of the current size while nothing, or the current format, is pending: copy
and present only. -/
theorem OnFrameArrived_steady (env : Env) (henv : env.Succeeds) (s : SimpleCapture)
    (sc : IDXGISwapChain1) (fr : Direct3D11CaptureFrame)
    (hsc : s.m_swapChain = some sc)
    (hsize : fr.ContentSize = s.m_lastSize)
    (hpending : s.m_pixelFormatUpdate = none ∨ s.m_pixelFormatUpdate = some s.m_pixelFormat) :
    SimpleCapture.OnFrameArrived env (some fr) s =
      (Except.ok (), { s with
        m_pixelFormatUpdate := none
        trace := s.trace ++
          frameCalls env s.m_device
            { Width := sc.Width, Height := sc.Height, Format := sc.Format } fr }) := by
  have h := henv.not_failed
  rcases hpending with hp | hp <;>
  simp [SimpleCapture.OnFrameArrived, SimpleCapture.TryResizeSwapChain,
    SimpleCapture.TryUpdatePixelFormat,
    SimpleCapture.ResizeSwapChain, SimpleCapture.CompileComputeShader,
    Step.bind_apply, Step.pure_apply, getState, setState, emit, deref,
    check_hresult, FAILED, raise, hsc, hsize, hp, h, frameCalls,
    shaderProfile, compileFlags]

/-- A null frame: the first use of the frame faults, before anything else happens. -/
theorem OnFrameArrived_null (env : Env) (s : SimpleCapture) :
    SimpleCapture.OnFrameArrived env none s = (Except.error Error.access_violation, s) := by
  simp [SimpleCapture.OnFrameArrived, SimpleCapture.TryResizeSwapChain, Step.bind_apply,
    deref, raise]

/-- A run of notifications that all carry the current size, with nothing pending. -/
theorem notifications_steady (env : Env) (henv : env.Succeeds)
    (frames : List Direct3D11CaptureFrame) :
    ∀ (s : SimpleCapture) (sc : IDXGISwapChain1), s.m_swapChain = some sc →
      s.m_pixelFormatUpdate = none → (∀ fr ∈ frames, fr.ContentSize = s.m_lastSize) →
      notifications env (frames.map some) s =
        (Except.ok (), { s with trace := s.trace ++ (frames.flatMap
          (frameCalls env s.m_device
            { Width := sc.Width, Height := sc.Height, Format := sc.Format })) }) := by
  induction frames with
  | nil =>
    intro s sc _ _ _
    simp [notifications, Step.pure_apply]
  | cons fr rest ih =>
    intro s sc hsc hpending hsize
    have hfr : fr.ContentSize = s.m_lastSize := hsize fr (List.mem_cons_self _ _)
    have hrest : ∀ x ∈ rest, x.ContentSize = s.m_lastSize :=
      fun x hx => hsize x (List.mem_cons_of_mem _ hx)
    simp only [List.map_cons, notifications, Step.bind_apply]
    rw [OnFrameArrived_steady env henv s sc fr hsc hfr (Or.inl hpending)]
    simp only
    rw [ih { s with m_pixelFormatUpdate := none, trace := s.trace ++ (frameCalls env s.m_device
      { Width := sc.Width, Height := sc.Height, Format := sc.Format } fr) } sc hsc rfl hrest]
    simp [hpending, List.append_assoc]

theorem frameCalls_surface (env : Env) (device : IDirect3DDevice) (bb : ID3D11Texture2D)
    (frames : List Direct3D11CaptureFrame) :
    (frames.flatMap (frameCalls env device bb)).filter Call.isSurfaceCall =
      frames.flatMap (fun fr => [Call.CopyResource bb fr, Call.Present1 1 0]) := by
  induction frames with
  | nil => rfl
  | cons fr rest ih =>
    simp only [List.flatMap_cons, List.filter_append, ih]
    simp [frameCalls, Call.isSurfaceCall, Call.isResizeBuffers, Call.isCopyResource,
      Call.isPresent1, Call.isFramePoolRecreate]

theorem frameCalls_counts (env : Env) (device : IDirect3DDevice) (bb : ID3D11Texture2D)
    (frames : List Direct3D11CaptureFrame) :
    (frames.flatMap (frameCalls env device bb)).countP Call.isResizeBuffers = 0 ∧
    (frames.flatMap (frameCalls env device bb)).countP Call.isFramePoolRecreate = 0 ∧
    (frames.flatMap (frameCalls env device bb)).countP Call.isCopyResource = frames.length ∧
    (frames.flatMap (frameCalls env device bb)).countP Call.isPresent1 = frames.length ∧
    (frames.flatMap (frameCalls env device bb)).countP Call.isD3DCompileFromFile = frames.length ∧
    (frames.flatMap (frameCalls env device bb)).countP Call.isCreateComputeShader =
      frames.length := by
  induction frames with
  | nil => simp
  | cons fr rest ih =>
    obtain ⟨h1, h2, h3, h4, h5, h6⟩ := ih
    simp only [List.flatMap_cons, List.countP_append, h1, h2, h3, h4, h5, h6, List.length_cons]
    simp [frameCalls, List.countP_cons, Call.isResizeBuffers, Call.isCopyResource,
      Call.isPresent1, Call.isFramePoolRecreate, Call.isD3DCompileFromFile,
      Call.isCreateComputeShader, Nat.add_comm]

theorem frameCalls_formatPassed (env : Env) (device : IDirect3DDevice) (bb : ID3D11Texture2D)
    (fr : Direct3D11CaptureFrame) :
    ∀ c ∈ frameCalls env device bb fr, c.formatPassed = none := by
  simp [frameCalls, Call.formatPassed]

theorem frameCalls_count_one (env : Env) (device : IDirect3DDevice) (bb : ID3D11Texture2D)
    (fr : Direct3D11CaptureFrame) :
    (frameCalls env device bb fr).countP Call.isResizeBuffers = 0 ∧
    (frameCalls env device bb fr).countP Call.isFramePoolRecreate = 0 ∧
    (frameCalls env device bb fr).countP Call.isCopyResource = 1 ∧
    (frameCalls env device bb fr).countP Call.isPresent1 = 1 ∧
    (frameCalls env device bb fr).countP Call.isD3DCompileFromFile = 1 ∧
    (frameCalls env device bb fr).countP Call.isCreateComputeShader = 1 := by
  simp [frameCalls, List.countP_cons, Call.isResizeBuffers, Call.isCopyResource,
    Call.isPresent1, Call.isFramePoolRecreate, Call.isD3DCompileFromFile,
    Call.isCreateComputeShader]

/-- Along a run of notifications of constant size with nothing pending, the shader is
compiled and created once per notification: the run emits as many `D3DCompileFromFile`
calls and as many `CreateComputeShader` calls as there are notifications. -/
theorem notifications_compile_count (env : Env) (henv : env.Succeeds) (s : SimpleCapture)
    (sc : IDXGISwapChain1) (frames : List Direct3D11CaptureFrame)
    (hsc : s.m_swapChain = some sc)
    (hpending : s.m_pixelFormatUpdate = none)
    (hsize : ∀ fr ∈ frames, fr.ContentSize = s.m_lastSize) :
    ∃ s1 t, notifications env (frames.map some) s = (Except.ok (), s1) ∧
      s1.trace = s.trace ++ t ∧
      t.countP Call.isD3DCompileFromFile = frames.length ∧
      t.countP Call.isCreateComputeShader = frames.length := by
  have hc := frameCalls_counts env s.m_device
    { Width := sc.Width, Height := sc.Height, Format := sc.Format } frames
  exact ⟨_, _, notifications_steady env henv frames s sc hsc hpending hsize, rfl,
    hc.2.2.2.2.1, hc.2.2.2.2.2⟩

/-! ## Facts that hold whatever the external calls return -/

theorem presentFrame_members (env : Env) (frame : Option Direct3D11CaptureFrame)
    (s : SimpleCapture) : members (presentFrame env frame s).2 = members s := by
  have h : (presentFrame env frame).Post s (fun _ s1 => members s1 = members s) := by
    simp [presentFrame, SimpleCapture.CompileComputeShader, FAILED,
      Step.post_bind, Step.post_pure, Step.post_raise, Step.post_getState, Step.post_setState,
      Step.post_emit, Step.post_ite, Step.post_check_hresult, Step.post_deref, members]
  exact h

theorem SurfaceInvariant_of_members {s s1 : SimpleCapture} (h : members s1 = members s)
    (hs : SurfaceInvariant s) : SurfaceInvariant s1 := by
  have e1 : (members s1).m_swapChain = (members s).m_swapChain := by rw [h]
  have e2 : (members s1).m_lastSize = (members s).m_lastSize := by rw [h]
  have e3 : (members s1).m_pixelFormat = (members s).m_pixelFormat := by rw [h]
  simp only [members] at e1 e2 e3
  unfold SurfaceInvariant at *
  rw [e1, e2, e3]
  exact hs

theorem TryResizeSwapChain_maintains (env : Env) (henv : env.ResizeSucceeds)
    (frame : Option Direct3D11CaptureFrame) :
    (SimpleCapture.TryResizeSwapChain env frame).Maintains SurfaceInvariant := by
  apply Step.maintains_of_post
  intro s hs
  obtain ⟨sc, hsc, hw, hh, hf⟩ := hs
  have h : ∀ n w h f fl, ¬ env.hresult (Call.ResizeBuffers n w h f fl) < 0 :=
    fun n w h f fl => not_lt.mpr (henv n w h f fl)
  simp [SimpleCapture.TryResizeSwapChain, SimpleCapture.ResizeSwapChain,
    Step.post_bind, Step.post_pure, Step.post_raise, Step.post_getState, Step.post_setState,
    Step.post_emit, Step.post_ite, Step.post_check_hresult, Step.post_deref, SurfaceInvariant,
    hsc, hw, hh, hf, h]

theorem TryUpdatePixelFormat_maintains (env : Env) (henv : env.ResizeSucceeds) :
    (SimpleCapture.TryUpdatePixelFormat env).Maintains SurfaceInvariant := by
  apply Step.maintains_of_post
  intro s hs
  obtain ⟨sc, hsc, hw, hh, hf⟩ := hs
  have h : ∀ n w h f fl, ¬ env.hresult (Call.ResizeBuffers n w h f fl) < 0 :=
    fun n w h f fl => not_lt.mpr (henv n w h f fl)
  rcases hp : s.m_pixelFormatUpdate with _ | f <;>
  simp [SimpleCapture.TryUpdatePixelFormat, SimpleCapture.ResizeSwapChain,
    Step.post_bind, Step.post_pure, Step.post_raise, Step.post_getState, Step.post_setState,
    Step.post_emit, Step.post_ite, Step.post_check_hresult, Step.post_deref, SurfaceInvariant,
    hsc, hw, hh, hf, h, hp]

theorem recreatePool_maintains (env : Env) (henv : env.ResizeSucceeds) (b : Bool) :
    (recreatePool env b).Maintains SurfaceInvariant := by
  unfold recreatePool
  apply Step.maintains_bind
  · cases b
    · exact TryUpdatePixelFormat_maintains env henv
    · intro s hs
      exact hs
  · intro updated
    apply Step.maintains_of_post
    intro s hs
    obtain ⟨sc, hsc, hw, hh, hf⟩ := hs
    cases updated <;>
    simp [Step.post_bind, Step.post_pure, Step.post_raise, Step.post_getState,
      Step.post_setState, Step.post_emit, Step.post_ite, Step.post_deref, SurfaceInvariant,
      hsc, hw, hh, hf]

theorem OnFrameArrived_maintains (env : Env) (henv : env.ResizeSucceeds)
    (frame : Option Direct3D11CaptureFrame) :
    (SimpleCapture.OnFrameArrived env frame).Maintains SurfaceInvariant := by
  rw [OnFrameArrived_eq]
  apply Step.maintains_bind
  · exact TryResizeSwapChain_maintains env henv frame
  · intro b
    apply Step.maintains_bind
    · intro s hs
      exact SurfaceInvariant_of_members (presentFrame_members env frame s) hs
    · intro _
      exact recreatePool_maintains env henv b

theorem TryResizeSwapChain_post (env : Env) (frame : Option Direct3D11CaptureFrame)
    (s : SimpleCapture) :
    (SimpleCapture.TryResizeSwapChain env frame).Post s (fun r s1 =>
      s1.m_pixelFormatUpdate = s.m_pixelFormatUpdate ∧ s1.m_pixelFormat = s.m_pixelFormat ∧
      (r = Except.ok false → ∃ fr, frame = some fr ∧ fr.ContentSize.Width = s.m_lastSize.Width ∧
        fr.ContentSize.Height = s.m_lastSize.Height)) := by
  rcases frame with _ | fr
  · simp [SimpleCapture.TryResizeSwapChain, Step.post_bind, Step.post_deref]
  · simp [SimpleCapture.TryResizeSwapChain, SimpleCapture.ResizeSwapChain,
      Step.post_bind, Step.post_pure, Step.post_raise, Step.post_getState, Step.post_setState,
      Step.post_emit, Step.post_ite, Step.post_check_hresult, Step.post_deref]
    exact fun hw hh => ⟨hw, hh⟩

theorem recreatePool_true_post (env : Env) (s : SimpleCapture) :
    (recreatePool env true).Post s (fun _ s1 =>
      s1.m_pixelFormatUpdate = s.m_pixelFormatUpdate ∧ s1.m_pixelFormat = s.m_pixelFormat) := by
  simp [recreatePool, Step.post_bind, Step.post_pure, Step.post_raise, Step.post_getState,
    Step.post_setState, Step.post_emit, Step.post_ite, Step.post_deref]

theorem TryUpdatePixelFormat_empties (env : Env) (s : SimpleCapture) :
    (SimpleCapture.TryUpdatePixelFormat env s).2.m_pixelFormatUpdate = none := by
  have h : (SimpleCapture.TryUpdatePixelFormat env).Post s
      (fun _ s1 => s1.m_pixelFormatUpdate = none) := by
    rcases hp : s.m_pixelFormatUpdate with _ | f <;>
    simp [SimpleCapture.TryUpdatePixelFormat, SimpleCapture.ResizeSwapChain,
      Step.post_bind, Step.post_pure, Step.post_raise, Step.post_getState, Step.post_setState,
      Step.post_emit, Step.post_ite, Step.post_check_hresult, Step.post_deref, hp]
  exact h

/-- Unless the frame is non-null and of the current size, `OnFrameArrived` leaves the
pending slot and `m_pixelFormat` alone, whatever the external calls return. -/
theorem OnFrameArrived_slot_untouched (env : Env) (frame : Option Direct3D11CaptureFrame)
    (s : SimpleCapture)
    (h : ¬ ∃ fr, frame = some fr ∧ fr.ContentSize.Width = s.m_lastSize.Width ∧
      fr.ContentSize.Height = s.m_lastSize.Height) :
    (SimpleCapture.OnFrameArrived env frame s).2.m_pixelFormatUpdate = s.m_pixelFormatUpdate ∧
    (SimpleCapture.OnFrameArrived env frame s).2.m_pixelFormat = s.m_pixelFormat := by
  have h1 := TryResizeSwapChain_post env frame s
  unfold Step.Post at h1
  rw [OnFrameArrived_eq, Step.bind_apply]
  rcases hr : SimpleCapture.TryResizeSwapChain env frame s with ⟨r, s1⟩
  rw [hr] at h1
  obtain ⟨e1, e2, e3⟩ := h1
  cases r with
  | error e => exact ⟨e1, e2⟩
  | ok b =>
    cases b with
    | false => exact absurd (e3 rfl) h
    | true =>
      simp only [Step.bind_apply]
      have h2 := presentFrame_members env frame s1
      rcases hp : presentFrame env frame s1 with ⟨r2, s2⟩
      rw [hp] at h2
      have m1 : (members s2).m_pixelFormatUpdate = (members s1).m_pixelFormatUpdate := by rw [h2]
      have m2 : (members s2).m_pixelFormat = (members s1).m_pixelFormat := by rw [h2]
      simp only [members] at m1 m2
      cases r2 with
      | error e => exact ⟨m1.trans e1, m2.trans e2⟩
      | ok u =>
        have h3 := recreatePool_true_post env s2
        unfold Step.Post at h3
        exact ⟨h3.1.trans (m1.trans e1), h3.2.trans (m2.trans e2)⟩

/-- A frame of a new size: the pixel-format check is skipped, whatever the external calls
return. -/
theorem OnFrameArrived_skips_format (env : Env) (s : SimpleCapture)
    (fr : Direct3D11CaptureFrame)
    (hsize : fr.ContentSize.Width ≠ s.m_lastSize.Width ∨
      fr.ContentSize.Height ≠ s.m_lastSize.Height) :
    (SimpleCapture.OnFrameArrived env (some fr) s).2.m_pixelFormatUpdate = s.m_pixelFormatUpdate ∧
    (SimpleCapture.OnFrameArrived env (some fr) s).2.m_pixelFormat = s.m_pixelFormat := by
  apply OnFrameArrived_slot_untouched
  rintro ⟨fr0, h0, hw, hh⟩
  cases h0
  rcases hsize with h | h
  · exact h hw
  · exact h hh

/-! ## Pixel-format requests -/

theorem SetPixelFormat_open (f : DirectXPixelFormat) (s : SimpleCapture)
    (hopen : s.m_closed = false) :
    SimpleCapture.SetPixelFormat f s = (Except.ok (), { s with m_pixelFormatUpdate := some f }) := by
  simp [SimpleCapture.SetPixelFormat, SimpleCapture.CheckClosed, Step.bind_apply,
    Step.pure_apply, getState, setState, hopen]

theorem setPixelFormats_open (fs : List DirectXPixelFormat) (fn : DirectXPixelFormat) :
    ∀ s : SimpleCapture, s.m_closed = false →
      setPixelFormats (fs ++ [fn]) s = (Except.ok (), { s with m_pixelFormatUpdate := some fn }) := by
  induction fs with
  | nil =>
    intro s hopen
    simp [setPixelFormats, Step.bind_apply, Step.pure_apply, SetPixelFormat_open fn s hopen]
  | cons f rest ih =>
    intro s hopen
    simp only [List.cons_append, setPixelFormats, Step.bind_apply, SetPixelFormat_open f s hopen]
    exact ih { s with m_pixelFormatUpdate := some f } hopen

/-! ## Lifecycle: `Close` -/

theorem Close_closed (s : SimpleCapture) (h : s.m_closed = true) :
    SimpleCapture.Close s = (Except.ok (), s) := by
  simp [SimpleCapture.Close, Step.bind_apply, Step.pure_apply, getState, h]

theorem Close_open (s : SimpleCapture) (session : GraphicsCaptureSession)
    (pool : Direct3D11CaptureFramePool) (h : s.m_closed = false)
    (hsession : s.m_session = some session) (hpool : s.m_framePool = some pool) :
    SimpleCapture.Close s =
      (Except.ok (), { s with
        m_closed := true, m_swapChain := none, m_framePool := none, m_session := none,
        m_item := none, trace := s.trace ++ [Call.SessionClose, Call.FramePoolClose] }) := by
  simp [SimpleCapture.Close, Step.bind_apply, Step.pure_apply, getState, setState, emit, deref,
    h, hsession, hpool]

theorem closeTimes_closed (n : Nat) (s : SimpleCapture) (h : s.m_closed = true) :
    closeTimes n s = (Except.ok (), s) := by
  induction n with
  | zero => rfl
  | succ k ih => simp only [closeTimes, Step.bind_apply, Close_closed s h, ih]

theorem Close_sets_flag (s : SimpleCapture) : (SimpleCapture.Close s).2.m_closed = true := by
  have h : SimpleCapture.Close.Post s (fun _ s1 => s1.m_closed = true) := by
    simp [SimpleCapture.Close, Step.post_bind, Step.post_pure, Step.post_getState,
      Step.post_setState, Step.post_emit, Step.post_ite, Step.post_deref]
  exact h

/-! ## Well-formedness is an invariant of every operation -/

theorem WellFormed_of_members {s s1 : SimpleCapture} (h : members s1 = members s)
    (hs : WellFormed s) : WellFormed s1 := by
  have e1 : (members s1).m_closed = (members s).m_closed := by rw [h]
  have e2 : (members s1).m_session = (members s).m_session := by rw [h]
  have e3 : (members s1).m_framePool = (members s).m_framePool := by rw [h]
  have e4 : (members s1).m_swapChain = (members s).m_swapChain := by rw [h]
  simp only [members] at e1 e2 e3 e4
  unfold WellFormed at *
  rw [e1, e2, e3, e4]
  exact hs

theorem WellFormed_constructor (device : IDirect3DDevice) (item : GraphicsCaptureItem)
    (pixelFormat : DirectXPixelFormat) :
    WellFormed (SimpleCapture.SimpleCapture device item pixelFormat) := by
  intro _
  simp [SimpleCapture.SimpleCapture]

theorem WellFormed_of_kept {s s1 : SimpleCapture} (h : HandlesKept s s1)
    (hs : WellFormed s) : WellFormed s1 := by
  intro hopen
  obtain ⟨h1, h2, h3, h4⟩ := h
  rw [h1] at hopen
  obtain ⟨a, b, c⟩ := hs hopen
  exact ⟨h2 a, h3 b, h4 c⟩

theorem Step.maintains_of_kept {α : Type} (m : Step α)
    (h : ∀ s, m.Post s (fun _ s1 => HandlesKept s s1)) : m.Maintains WellFormed :=
  fun s hs => WellFormed_of_kept (h s) hs

theorem StartCapture_wellFormed : SimpleCapture.StartCapture.Maintains WellFormed := by
  apply Step.maintains_of_kept
  intro s
  simp [SimpleCapture.StartCapture, SimpleCapture.CheckClosed, Step.post_bind, Step.post_pure,
    Step.post_raise, Step.post_getState, Step.post_setState, Step.post_emit, Step.post_ite,
    Step.post_deref, HandlesKept]

theorem CreateSurface_wellFormed : SimpleCapture.CreateSurface.Maintains WellFormed := by
  apply Step.maintains_of_kept
  intro s
  simp [SimpleCapture.CreateSurface, SimpleCapture.CheckClosed, Step.post_bind,
    Step.post_pure, Step.post_raise, Step.post_getState, Step.post_setState, Step.post_emit,
    Step.post_ite, Step.post_deref, HandlesKept]

theorem SetPixelFormat_wellFormed (f : DirectXPixelFormat) :
    (SimpleCapture.SetPixelFormat f).Maintains WellFormed := by
  apply Step.maintains_of_kept
  intro s
  simp [SimpleCapture.SetPixelFormat, SimpleCapture.CheckClosed, Step.post_bind,
    Step.post_pure, Step.post_raise, Step.post_getState, Step.post_setState, Step.post_emit,
    Step.post_ite, Step.post_deref, HandlesKept]

theorem Close_wellFormed : SimpleCapture.Close.Maintains WellFormed := by
  intro s _ hopen
  rw [Close_sets_flag] at hopen
  exact absurd hopen (by decide)

theorem TryResizeSwapChain_wellFormed (env : Env) (frame : Option Direct3D11CaptureFrame) :
    (SimpleCapture.TryResizeSwapChain env frame).Maintains WellFormed := by
  apply Step.maintains_of_kept
  intro s
  simp [SimpleCapture.TryResizeSwapChain, SimpleCapture.ResizeSwapChain,
    Step.post_bind, Step.post_pure, Step.post_raise, Step.post_getState, Step.post_setState,
    Step.post_emit, Step.post_ite, Step.post_check_hresult, Step.post_deref, HandlesKept]

theorem TryUpdatePixelFormat_wellFormed (env : Env) :
    (SimpleCapture.TryUpdatePixelFormat env).Maintains WellFormed := by
  apply Step.maintains_of_kept
  intro s
  rcases hp : s.m_pixelFormatUpdate with _ | f <;>
  simp [SimpleCapture.TryUpdatePixelFormat, SimpleCapture.ResizeSwapChain,
    Step.post_bind, Step.post_pure, Step.post_raise, Step.post_getState, Step.post_setState,
    Step.post_emit, Step.post_ite, Step.post_check_hresult, Step.post_deref, HandlesKept, hp]

theorem recreatePool_wellFormed (env : Env) (b : Bool) :
    (recreatePool env b).Maintains WellFormed := by
  unfold recreatePool
  apply Step.maintains_bind
  · cases b
    · exact TryUpdatePixelFormat_wellFormed env
    · intro s hs
      exact hs
  · intro updated
    apply Step.maintains_of_kept
    intro s
    cases updated <;>
    simp [Step.post_bind, Step.post_pure, Step.post_raise, Step.post_getState,
      Step.post_setState, Step.post_emit, Step.post_ite, Step.post_deref, HandlesKept]

theorem OnFrameArrived_wellFormed (env : Env) (frame : Option Direct3D11CaptureFrame) :
    (SimpleCapture.OnFrameArrived env frame).Maintains WellFormed := by
  rw [OnFrameArrived_eq]
  apply Step.maintains_bind
  · exact TryResizeSwapChain_wellFormed env frame
  · intro b
    apply Step.maintains_bind
    · intro s hs
      exact WellFormed_of_members (presentFrame_members env frame s) hs
    · intro _
      exact recreatePool_wellFormed env b

/-- Every state the pipeline can be in is well formed. -/
theorem Reachable.wellFormed {env : Env} {s : SimpleCapture} (h : Reachable env s) :
    WellFormed s := by
  induction h with
  | construct device item pixelFormat => exact WellFormed_constructor device item pixelFormat
  | startCapture _ ih => exact StartCapture_wellFormed _ ih
  | createSurface _ ih => exact CreateSurface_wellFormed _ ih
  | setPixelFormat f _ ih => exact SetPixelFormat_wellFormed f _ ih
  | onFrameArrived frame _ ih => exact OnFrameArrived_wellFormed env frame _ ih
  | close _ ih => exact Close_wellFormed _ ih

/-- The sample pipeline is well formed. -/
theorem WellFormed_sampleState : WellFormed sampleState := by
  intro _
  exact ⟨by decide, by decide, by decide⟩

/-! ## The claims -/

/-- Claim C1. In a state with a live swap chain (in particular one whose size equals
`m_lastSize`) and a live frame pool, a frame whose content size `S2` differs from
`m_lastSize` in width or in height makes `OnFrameArrived` return normally with
`m_lastSize = S2`.  The surface calls it emits are, in this order: one `ResizeBuffers` to
`S2`, one `CopyResource` whose destination has the size `S2` (the content size of the
frame, as cast to `uint32_t`, which is the content size itself when that is not
negative), one `Present1`, and one pool `Recreate` with buffer count 2 and size `S2`. -/
theorem C1_resize_before_copy (env : Env) (henv : env.Succeeds) (s : SimpleCapture)
    (sc : IDXGISwapChain1) (pool : Direct3D11CaptureFramePool) (fr : Direct3D11CaptureFrame)
    (hsc : s.m_swapChain = some sc) (hpool : s.m_framePool = some pool)
    (hsize : fr.ContentSize.Width ≠ s.m_lastSize.Width ∨
      fr.ContentSize.Height ≠ s.m_lastSize.Height) :
    ∃ s1 t, SimpleCapture.OnFrameArrived env (some fr) s = (Except.ok (), s1) ∧
      s1.m_lastSize = fr.ContentSize ∧
      s1.m_swapChain =
        some { BufferCount := 2, Width := static_cast_uint32 fr.ContentSize.Width,
               Height := static_cast_uint32 fr.ContentSize.Height,
               Format := static_cast_DXGI_FORMAT s.m_pixelFormat } ∧
      s1.m_framePool =
        some { PixelFormat := s.m_pixelFormat, NumberOfBuffers := 2, Size := fr.ContentSize } ∧
      s1.trace = s.trace ++ t ∧
      t.filter Call.isSurfaceCall =
        [Call.ResizeBuffers 2 (static_cast_uint32 fr.ContentSize.Width)
           (static_cast_uint32 fr.ContentSize.Height) (static_cast_DXGI_FORMAT s.m_pixelFormat) 0,
         Call.CopyResource
           { Width := static_cast_uint32 fr.ContentSize.Width,
             Height := static_cast_uint32 fr.ContentSize.Height,
             Format := static_cast_DXGI_FORMAT s.m_pixelFormat } fr,
         Call.Present1 1 0,
         Call.FramePoolRecreate s.m_pixelFormat 2 fr.ContentSize] ∧
      (0 ≤ fr.ContentSize.Width → fr.ContentSize.Width < 4294967296 →
        (static_cast_uint32 fr.ContentSize.Width : Int) = fr.ContentSize.Width) ∧
      (0 ≤ fr.ContentSize.Height → fr.ContentSize.Height < 4294967296 →
        (static_cast_uint32 fr.ContentSize.Height : Int) = fr.ContentSize.Height) := by
  refine ⟨_, _, OnFrameArrived_resized env henv s sc pool fr hsc hpool hsize, rfl, rfl, rfl, rfl,
    ?_, ?_, ?_⟩
  · simp [frameCalls, Call.isSurfaceCall, Call.isResizeBuffers, Call.isCopyResource,
      Call.isPresent1, Call.isFramePoolRecreate]
  · intro h0 h1
    unfold static_cast_uint32
    rw [Int.emod_eq_of_lt h0 h1]
    exact Int.toNat_of_nonneg h0
  · intro h0 h1
    unfold static_cast_uint32
    rw [Int.emod_eq_of_lt h0 h1]
    exact Int.toNat_of_nonneg h0

/-- Claim C1 at the sample pipeline: the 800×600 pipeline receives a 1024×768 frame. -/
theorem C1_resize_before_copy_witness :
    sampleState.m_swapChain = some { BufferCount := 2, Width := 800, Height := 600, Format := 87 } ∧
    sampleState.m_framePool =
      some { PixelFormat := 87, NumberOfBuffers := 2, Size := { Width := 800, Height := 600 } } ∧
    (frame1024.ContentSize.Width ≠ sampleState.m_lastSize.Width ∨
      frame1024.ContentSize.Height ≠ sampleState.m_lastSize.Height) ∧
    ∃ s1, SimpleCapture.OnFrameArrived sampleEnv (some frame1024) sampleState = (Except.ok (), s1) ∧
      s1.m_lastSize = { Width := 1024, Height := 768 } := by
  refine ⟨rfl, rfl, by decide, ?_⟩
  obtain ⟨s1, t, h⟩ := C1_resize_before_copy sampleEnv sampleEnv_succeeds sampleState
    { BufferCount := 2, Width := 800, Height := 600, Format := 87 }
    { PixelFormat := 87, NumberOfBuffers := 2, Size := { Width := 800, Height := 600 } }
    frame1024 rfl rfl (by decide)
  exact ⟨s1, h.1, h.2.1⟩

/-- Claim C2. Along any finite sequence of notifications whose frames all have the content
size `m_lastSize`, started with an empty pending pixel-format slot, every call of
`OnFrameArrived` returns normally; `m_lastSize`, `m_pixelFormat`, the swap chain, the frame
pool and the (empty) pending slot are left unchanged; and the surface calls emitted are,
per notification, exactly one `CopyResource` followed by exactly one `Present1`: no
resize and no pool `Recreate`. -/
theorem C2_constant_size_and_format (env : Env) (henv : env.Succeeds) (s : SimpleCapture)
    (sc : IDXGISwapChain1) (frames : List Direct3D11CaptureFrame)
    (hsc : s.m_swapChain = some sc)
    (hpending : s.m_pixelFormatUpdate = none)
    (hsize : ∀ fr ∈ frames, fr.ContentSize = s.m_lastSize) :
    ∃ s1 t, notifications env (frames.map some) s = (Except.ok (), s1) ∧
      s1.m_lastSize = s.m_lastSize ∧ s1.m_pixelFormat = s.m_pixelFormat ∧
      s1.m_swapChain = s.m_swapChain ∧ s1.m_framePool = s.m_framePool ∧
      s1.m_pixelFormatUpdate = none ∧
      s1.trace = s.trace ++ t ∧
      t.filter Call.isSurfaceCall = frames.flatMap (fun fr =>
        [Call.CopyResource { Width := sc.Width, Height := sc.Height, Format := sc.Format } fr,
         Call.Present1 1 0]) ∧
      t.countP Call.isResizeBuffers = 0 ∧ t.countP Call.isFramePoolRecreate = 0 ∧
      t.countP Call.isCopyResource = frames.length ∧
      t.countP Call.isPresent1 = frames.length := by
  have hc := frameCalls_counts env s.m_device
    { Width := sc.Width, Height := sc.Height, Format := sc.Format } frames
  exact ⟨_, _, notifications_steady env henv frames s sc hsc hpending hsize, rfl, rfl, rfl, rfl,
    hpending, rfl, frameCalls_surface env _ _ frames, hc.1, hc.2.1, hc.2.2.1, hc.2.2.2.1⟩

/-- Claim C2 at the sample pipeline: two notifications with 800×600 frames. -/
theorem C2_constant_size_and_format_witness :
    sampleState.m_swapChain = some { BufferCount := 2, Width := 800, Height := 600, Format := 87 } ∧
    sampleState.m_pixelFormatUpdate = none ∧
    (∀ fr ∈ [frame800, frame800], fr.ContentSize = sampleState.m_lastSize) ∧
    ∃ s1, notifications sampleEnv ([frame800, frame800].map some) sampleState = (Except.ok (), s1) ∧
      s1.m_swapChain = sampleState.m_swapChain ∧ s1.m_lastSize = sampleState.m_lastSize := by
  refine ⟨rfl, rfl, by decide, ?_⟩
  obtain ⟨s1, t, h⟩ := C2_constant_size_and_format sampleEnv sampleEnv_succeeds sampleState
    { BufferCount := 2, Width := 800, Height := 600, Format := 87 } [frame800, frame800]
    rfl rfl (by decide)
  exact ⟨s1, h.1, h.2.2.2.1, h.2.1⟩

/-- Claim C3. The predicate "the swap chain's width and height equal `m_lastSize` (as cast
to `uint32_t`) and its format equals `m_pixelFormat`" holds in the state produced by the
constructor, for every item size and initial format, and is maintained by
`TryResizeSwapChain`, by `TryUpdatePixelFormat` and by `OnFrameArrived`, for every frame
(null or of any content size) and every content of the pending slot, in every run in which
the `ResizeBuffers` calls return a success code. -/
theorem C3_surface_invariant :
    (∀ (device : IDirect3DDevice) (item : GraphicsCaptureItem) (pixelFormat : DirectXPixelFormat),
      SurfaceInvariant (SimpleCapture.SimpleCapture device item pixelFormat)) ∧
    ∀ env : Env, env.ResizeSucceeds → ∀ s : SimpleCapture, SurfaceInvariant s →
      ∀ frame : Option Direct3D11CaptureFrame,
        SurfaceInvariant (SimpleCapture.TryResizeSwapChain env frame s).2 ∧
        SurfaceInvariant (SimpleCapture.TryUpdatePixelFormat env s).2 ∧
        SurfaceInvariant (SimpleCapture.OnFrameArrived env frame s).2 := by
  constructor
  · intro device item pixelFormat
    exact ⟨_, rfl, rfl, rfl, rfl⟩
  · intro env henv s hs frame
    exact ⟨TryResizeSwapChain_maintains env henv frame s hs,
      TryUpdatePixelFormat_maintains env henv s hs,
      OnFrameArrived_maintains env henv frame s hs⟩

/-- Claim C3 at the sample pipeline and a 1024×768 frame. -/
theorem C3_surface_invariant_witness :
    sampleEnv.ResizeSucceeds ∧ SurfaceInvariant sampleState ∧
    SurfaceInvariant (SimpleCapture.TryResizeSwapChain sampleEnv (some frame1024) sampleState).2 ∧
    SurfaceInvariant (SimpleCapture.TryUpdatePixelFormat sampleEnv sampleState).2 ∧
    SurfaceInvariant (SimpleCapture.OnFrameArrived sampleEnv (some frame1024) sampleState).2 :=
  ⟨fun _ _ _ _ _ => le_refl _, C3_surface_invariant.1 _ _ _,
    C3_surface_invariant.2 sampleEnv (fun _ _ _ _ _ => le_refl _) sampleState
      (C3_surface_invariant.1 _ _ _) (some frame1024)⟩

/-- Claim C4, counterexample. After `SetPixelFormat(10)` on the sample pipeline (format
87, size 800×600), a notification whose frame has the new size 1024×768 returns normally
but does not apply the pending format: `m_pixelFormat` is still 87, the swap chain and the
pool are (re)created with format 87, and the slot still holds 10. -/
theorem C4_counterexample :
    (setPixelFormats [10] sampleState).1 = Except.ok () ∧
    (SimpleCapture.OnFrameArrived sampleEnv (some frame1024)
      (setPixelFormats [10] sampleState).2).1 = Except.ok () ∧
    (SimpleCapture.OnFrameArrived sampleEnv (some frame1024)
      (setPixelFormats [10] sampleState).2).2.m_pixelFormat = 87 ∧
    (SimpleCapture.OnFrameArrived sampleEnv (some frame1024)
      (setPixelFormats [10] sampleState).2).2.m_pixelFormatUpdate = some 10 ∧
    (SimpleCapture.OnFrameArrived sampleEnv (some frame1024)
      (setPixelFormats [10] sampleState).2).2.m_framePool =
        some { PixelFormat := 87, NumberOfBuffers := 2, Size := { Width := 1024, Height := 768 } } ∧
    ¬ ((SimpleCapture.OnFrameArrived sampleEnv (some frame1024)
        (setPixelFormats [10] sampleState).2).2.m_pixelFormat = 10 ∧
      (SimpleCapture.OnFrameArrived sampleEnv (some frame1024)
        (setPixelFormats [10] sampleState).2).2.m_pixelFormatUpdate = none) := by
  refine ⟨rfl, rfl, rfl, rfl, rfl, ?_⟩
  intro h
  exact absurd h.1 (by decide)

/-- Claim C4, as amended. On an open pipeline whose swap chain and pool carry
`m_pixelFormat`, let `SetPixelFormat` be called with `f1, …, fn` (here `fs ++ [fn]`)
between two notifications.  The slot then holds `fn` alone.  If the frame of the next
notification has the content size `m_lastSize`, that call of `OnFrameArrived` returns
normally with `m_pixelFormat = fn`, swap-chain and pool format `fn` and an empty slot;
every `ResizeBuffers` and pool `Recreate` it emits is passed `fn`, and there is one of each
when `fn` differs from the old format and none otherwise.  A further notification of the
same size with no `SetPixelFormat` in between changes no format and emits neither a resize
nor a `Recreate`.  If instead the frame of the next notification has another content size,
that call leaves `fn` in the slot and `m_pixelFormat` as it was. -/
theorem C4_last_format_applied_once (env : Env) (henv : env.Succeeds) (s : SimpleCapture)
    (sc : IDXGISwapChain1) (pool : Direct3D11CaptureFramePool)
    (fs : List DirectXPixelFormat) (fn : DirectXPixelFormat)
    (fr fr2 : Direct3D11CaptureFrame)
    (hopen : s.m_closed = false)
    (hsc : s.m_swapChain = some sc) (hscf : sc.Format = static_cast_DXGI_FORMAT s.m_pixelFormat)
    (hpool : s.m_framePool = some pool) (hpoolf : pool.PixelFormat = s.m_pixelFormat)
    (hsize : fr.ContentSize = s.m_lastSize) (hsize2 : fr2.ContentSize = s.m_lastSize) :
    ∃ s1 s2 s3 sc2 pool2 t t2,
      setPixelFormats (fs ++ [fn]) s = (Except.ok (), s1) ∧
      s1 = { s with m_pixelFormatUpdate := some fn } ∧
      SimpleCapture.OnFrameArrived env (some fr) s1 = (Except.ok (), s2) ∧
      s2.m_pixelFormat = fn ∧
      s2.m_swapChain = some sc2 ∧ sc2.Format = static_cast_DXGI_FORMAT fn ∧
      s2.m_framePool = some pool2 ∧ pool2.PixelFormat = fn ∧
      s2.m_pixelFormatUpdate = none ∧
      s2.trace = s.trace ++ t ∧
      (∀ c ∈ t, ∀ f, c.formatPassed = some f → f = fn) ∧
      t.countP Call.isResizeBuffers = (if fn = s.m_pixelFormat then 0 else 1) ∧
      t.countP Call.isFramePoolRecreate = (if fn = s.m_pixelFormat then 0 else 1) ∧
      SimpleCapture.OnFrameArrived env (some fr2) s2 = (Except.ok (), s3) ∧
      s3.m_pixelFormat = fn ∧ s3.m_swapChain = some sc2 ∧ s3.m_framePool = some pool2 ∧
      s3.m_pixelFormatUpdate = none ∧
      s3.trace = s2.trace ++ t2 ∧
      t2.countP Call.isResizeBuffers = 0 ∧ t2.countP Call.isFramePoolRecreate = 0 ∧
      (∀ fr0 : Direct3D11CaptureFrame,
        fr0.ContentSize.Width ≠ s.m_lastSize.Width ∨
          fr0.ContentSize.Height ≠ s.m_lastSize.Height →
        (SimpleCapture.OnFrameArrived env (some fr0) s1).2.m_pixelFormatUpdate = some fn ∧
        (SimpleCapture.OnFrameArrived env (some fr0) s1).2.m_pixelFormat = s.m_pixelFormat) := by
  have hset := setPixelFormats_open fs fn s hopen
  have hskip : ∀ fr0 : Direct3D11CaptureFrame,
      fr0.ContentSize.Width ≠ s.m_lastSize.Width ∨
        fr0.ContentSize.Height ≠ s.m_lastSize.Height →
      (SimpleCapture.OnFrameArrived env (some fr0)
        { s with m_pixelFormatUpdate := some fn }).2.m_pixelFormatUpdate = some fn ∧
      (SimpleCapture.OnFrameArrived env (some fr0)
        { s with m_pixelFormatUpdate := some fn }).2.m_pixelFormat = s.m_pixelFormat :=
    fun fr0 h0 => OnFrameArrived_skips_format env { s with m_pixelFormatUpdate := some fn } fr0 h0
  by_cases hfn : fn = s.m_pixelFormat
  · -- the requested format is the current one: the slot is emptied, nothing else changes
    have h2 := OnFrameArrived_steady env henv { s with m_pixelFormatUpdate := some fn } sc fr
      hsc hsize (Or.inr (by simp [hfn]))
    have h3 := OnFrameArrived_steady env henv
      { s with m_pixelFormatUpdate := none, trace := s.trace ++ (frameCalls env s.m_device
          { Width := sc.Width, Height := sc.Height, Format := sc.Format } fr) } sc fr2
      hsc hsize2 (Or.inl rfl)
    have hc := frameCalls_count_one env s.m_device
      { Width := sc.Width, Height := sc.Height, Format := sc.Format } fr
    have hc2 := frameCalls_count_one env s.m_device
      { Width := sc.Width, Height := sc.Height, Format := sc.Format } fr2
    refine ⟨_, _, _, sc, pool, _, _, hset, rfl, h2, hfn.symm, hsc, ?_, hpool, ?_, rfl, rfl,
      ?_, ?_, ?_, h3, hfn.symm, hsc, hpool, rfl, rfl, hc2.1, hc2.2.1, hskip⟩
    · rw [hscf, hfn]
    · rw [hpoolf, hfn]
    · intro c hc f hf
      rw [frameCalls_formatPassed env _ _ _ c hc] at hf
      exact absurd hf (by simp)
    · simp [hfn, hc.1]
    · simp [hfn, hc.2.1]
  · -- a different format: present, then resize and recreate with it
    have h2 := OnFrameArrived_updated env henv { s with m_pixelFormatUpdate := some fn } sc pool
      fr fn hsc hpool hsize rfl hfn
    have h3 := OnFrameArrived_steady env henv
      { s with
        m_pixelFormat := fn
        m_pixelFormatUpdate := none
        m_swapChain := some { BufferCount := 2, Width := static_cast_uint32 s.m_lastSize.Width,
                              Height := static_cast_uint32 s.m_lastSize.Height,
                              Format := static_cast_DXGI_FORMAT fn }
        m_framePool := some { PixelFormat := fn, NumberOfBuffers := 2, Size := s.m_lastSize }
        trace := s.trace ++
          (frameCalls env s.m_device
             { Width := sc.Width, Height := sc.Height, Format := sc.Format } fr ++
           [Call.ResizeBuffers 2 (static_cast_uint32 s.m_lastSize.Width)
              (static_cast_uint32 s.m_lastSize.Height) (static_cast_DXGI_FORMAT fn) 0,
            Call.FramePoolRecreate fn 2 s.m_lastSize]) }
      { BufferCount := 2, Width := static_cast_uint32 s.m_lastSize.Width,
        Height := static_cast_uint32 s.m_lastSize.Height,
        Format := static_cast_DXGI_FORMAT fn } fr2 rfl hsize2 (Or.inl rfl)
    have hc := frameCalls_count_one env s.m_device
      { Width := sc.Width, Height := sc.Height, Format := sc.Format } fr
    have hc2 := frameCalls_count_one env s.m_device
      { Width := static_cast_uint32 s.m_lastSize.Width,
        Height := static_cast_uint32 s.m_lastSize.Height,
        Format := static_cast_DXGI_FORMAT fn } fr2
    refine ⟨_, _, _, _, _, _, _, hset, rfl, h2, rfl, rfl, rfl, rfl, rfl, rfl, rfl,
      ?_, ?_, ?_, h3, rfl, rfl, rfl, rfl, rfl, hc2.1, hc2.2.1, hskip⟩
    · intro c hc f hf
      rcases List.mem_append.mp hc with hc | hc
      · rw [frameCalls_formatPassed env _ _ _ c hc] at hf
        exact absurd hf (by simp)
      · simp only [List.mem_cons, List.mem_singleton, List.not_mem_nil, or_false] at hc
        rcases hc with rfl | rfl <;>
        · simp only [Call.formatPassed, static_cast_DXGI_FORMAT, Option.some.injEq] at hf
          exact hf.symm
    · simp [hfn, hc.1, List.countP_append, List.countP_cons, Call.isResizeBuffers]
    · simp [hfn, hc.2.1, List.countP_append, List.countP_cons, Call.isFramePoolRecreate]

/-- Claim C4, as amended, at the sample pipeline: formats 16, 24, 10 are requested, then an
800×600 frame arrives. -/
theorem C4_last_format_applied_once_witness :
    sampleState.m_closed = false ∧
    sampleState.m_swapChain = some { BufferCount := 2, Width := 800, Height := 600, Format := 87 } ∧
    sampleState.m_framePool =
      some { PixelFormat := 87, NumberOfBuffers := 2, Size := { Width := 800, Height := 600 } } ∧
    frame800.ContentSize = sampleState.m_lastSize ∧
    ∃ s1 s2, setPixelFormats ([16, 24] ++ [10]) sampleState = (Except.ok (), s1) ∧
      SimpleCapture.OnFrameArrived sampleEnv (some frame800) s1 = (Except.ok (), s2) ∧
      s2.m_pixelFormat = 10 ∧ s2.m_pixelFormatUpdate = none := by
  refine ⟨rfl, rfl, rfl, rfl, ?_⟩
  obtain ⟨s1, s2, _, _, _, _, _, h⟩ := C4_last_format_applied_once sampleEnv sampleEnv_succeeds
    sampleState { BufferCount := 2, Width := 800, Height := 600, Format := 87 }
    { PixelFormat := 87, NumberOfBuffers := 2, Size := { Width := 800, Height := 600 } }
    [16, 24] 10 frame800 frame800 rfl rfl rfl rfl rfl rfl rfl
  exact ⟨s1, s2, h.1, h.2.2.1, h.2.2.2.1, h.2.2.2.2.2.2.2.2.1⟩

/-- Claim C5. `Close` runs its teardown exactly once.  On a pipeline that is not closed
(its session and frame pool being live), a call of `Close` returns normally, sets the
closed flag, emits the session `Close` and then the frame-pool `Close`, and clears swap
chain, frame pool, session and item; on a closed pipeline it returns normally, changes no
member and emits nothing.  Hence a second `Close` right after any `Close` changes nothing,
every sequence of `n ≥ 1` calls of `Close` has the same outcome, final state and trace as a
single call, and the closed flag is set after any `Close`. -/
theorem C5_close_runs_teardown_once (s : SimpleCapture) (hwf : WellFormed s) (n : Nat)
    (hn : 1 ≤ n) :
    (SimpleCapture.Close s).1 = Except.ok () ∧
    (SimpleCapture.Close s).2.m_closed = true ∧
    (s.m_closed = false →
      (SimpleCapture.Close s).2 = { s with
        m_closed := true, m_swapChain := none, m_framePool := none, m_session := none,
        m_item := none, trace := s.trace ++ [Call.SessionClose, Call.FramePoolClose] }) ∧
    (s.m_closed = true → (SimpleCapture.Close s).2 = s) ∧
    SimpleCapture.Close (SimpleCapture.Close s).2 = (Except.ok (), (SimpleCapture.Close s).2) ∧
    closeTimes n s = SimpleCapture.Close s ∧
    (closeTimes n s).2.trace =
      s.trace ++ (if s.m_closed then [] else [Call.SessionClose, Call.FramePoolClose]) := by
  have hflag := Close_sets_flag s
  have hagain : SimpleCapture.Close (SimpleCapture.Close s).2 =
      (Except.ok (), (SimpleCapture.Close s).2) := Close_closed _ hflag
  have htimes : closeTimes n s = SimpleCapture.Close s := by
    obtain ⟨k, rfl⟩ : ∃ k, n = k + 1 := ⟨n - 1, by omega⟩
    simp only [closeTimes, Step.bind_apply]
    rcases hc : SimpleCapture.Close s with ⟨r, s1⟩
    rw [hc] at hflag
    cases r with
    | error e => rfl
    | ok u => exact closeTimes_closed k s1 hflag
  cases hclosed : s.m_closed with
  | true =>
    have h := Close_closed s hclosed
    refine ⟨by rw [h], hflag, fun h0 => by simp at h0, fun _ => by rw [h], hagain, htimes, ?_⟩
    rw [htimes, h]
    simp
  | false =>
    obtain ⟨hs, hp, _⟩ := hwf hclosed
    obtain ⟨session, hsession⟩ := Option.ne_none_iff_exists'.mp hs
    obtain ⟨pool, hpool⟩ := Option.ne_none_iff_exists'.mp hp
    have h := Close_open s session pool hclosed hsession hpool
    refine ⟨by rw [h], hflag, fun _ => by rw [h], fun h0 => by simp at h0, hagain, htimes, ?_⟩
    rw [htimes, h]
    simp

/-- Claim C5 at the sample pipeline: three calls of `Close`. -/
theorem C5_close_runs_teardown_once_witness :
    WellFormed sampleState ∧ 1 ≤ 3 ∧
    closeTimes 3 sampleState = SimpleCapture.Close sampleState ∧
    (closeTimes 3 sampleState).2.trace =
      sampleState.trace ++ [Call.SessionClose, Call.FramePoolClose] :=
  ⟨WellFormed_sampleState, by decide,
    (C5_close_runs_teardown_once sampleState WellFormed_sampleState 3 (by decide)).2.2.2.2.2.1,
    (C5_close_runs_teardown_once sampleState WellFormed_sampleState 3 (by decide)).2.2.2.2.2.2⟩

/-- Claim C6. On a closed pipeline, `StartCapture` and `CreateSurface` each fail with the
closed-pipeline error of `CheckClosed` and leave the state, the call trace included, as it
was: no session `StartCapture` is issued and no composition surface is created.  On a
pipeline that is not closed, neither call fails with the closed-pipeline error. -/
theorem C6_closed_pipeline_rejects (s : SimpleCapture) :
    (s.m_closed = true →
      SimpleCapture.StartCapture s = (Except.error Error.closed, s) ∧
      SimpleCapture.CreateSurface s = (Except.error Error.closed, s)) ∧
    (s.m_closed = false →
      (SimpleCapture.StartCapture s).1 ≠ Except.error Error.closed ∧
      (SimpleCapture.CreateSurface s).1 ≠ Except.error Error.closed) := by
  constructor
  · intro h
    constructor
    · simp [SimpleCapture.StartCapture, SimpleCapture.CheckClosed, Step.bind_apply, getState,
        raise, h]
    · simp [SimpleCapture.CreateSurface, SimpleCapture.CheckClosed, Step.bind_apply, getState,
        raise, h]
  · intro h
    constructor
    · rcases hs : s.m_session with _ | session <;>
      simp [SimpleCapture.StartCapture, SimpleCapture.CheckClosed, Step.bind_apply,
        Step.pure_apply, getState, setState, emit, deref, raise, h, hs]
    · simp [SimpleCapture.CreateSurface, SimpleCapture.CheckClosed, Step.bind_apply,
        Step.pure_apply, getState, emit, h]

/-- Claim C6 at the sample pipeline, closed and open. -/
theorem C6_closed_pipeline_rejects_witness :
    (SimpleCapture.Close sampleState).2.m_closed = true ∧
    SimpleCapture.StartCapture (SimpleCapture.Close sampleState).2 =
      (Except.error Error.closed, (SimpleCapture.Close sampleState).2) ∧
    SimpleCapture.CreateSurface (SimpleCapture.Close sampleState).2 =
      (Except.error Error.closed, (SimpleCapture.Close sampleState).2) ∧
    sampleState.m_closed = false ∧
    (SimpleCapture.StartCapture sampleState).1 ≠ Except.error Error.closed ∧
    (SimpleCapture.CreateSurface sampleState).1 ≠ Except.error Error.closed :=
  ⟨rfl,
    ((C6_closed_pipeline_rejects (SimpleCapture.Close sampleState).2).1 rfl).1,
    ((C6_closed_pipeline_rejects (SimpleCapture.Close sampleState).2).1 rfl).2,
    rfl,
    ((C6_closed_pipeline_rejects sampleState).2 rfl).1,
    ((C6_closed_pipeline_rejects sampleState).2 rfl).2⟩

/-- Claim C7, counterexample. With a null frame, `OnFrameArrived` on the sample pipeline
does not return normally: it ends with an access violation. -/
theorem C7_counterexample :
    (SimpleCapture.OnFrameArrived sampleEnv none sampleState).1 =
      Except.error Error.access_violation ∧
    (SimpleCapture.OnFrameArrived sampleEnv none sampleState).1 ≠ Except.ok () := by
  rw [OnFrameArrived_null]
  exact ⟨rfl, fun h => by cases h⟩

/-- Claim C7, as amended. `OnFrameArrived` has no null-frame path.  When `TryGetNextFrame`
returns a null frame, the call emits no external call at all (no resize, no copy, no shader
compile, no `Present1`, no pool `Recreate`) and leaves every member unchanged
(`m_lastSize`, `m_pixelFormat` and the pending slot among them), but it does not return
normally: the first use of the frame, `frame.ContentSize()` in `TryResizeSwapChain`, goes
through the null handle. -/
theorem C7_null_frame_faults (env : Env) (s : SimpleCapture) :
    SimpleCapture.OnFrameArrived env none s = (Except.error Error.access_violation, s) ∧
    (SimpleCapture.OnFrameArrived env none s).2.trace = s.trace ∧
    (SimpleCapture.OnFrameArrived env none s).2.m_lastSize = s.m_lastSize ∧
    (SimpleCapture.OnFrameArrived env none s).2.m_pixelFormat = s.m_pixelFormat ∧
    (SimpleCapture.OnFrameArrived env none s).2.m_pixelFormatUpdate = s.m_pixelFormatUpdate := by
  rw [OnFrameArrived_null]
  exact ⟨rfl, rfl, rfl, rfl, rfl⟩

/-- Claim C8, counterexample. On the sample pipeline (format 87, size 800×600): with the
current format 87 pending and a frame of the current size, the call returns normally but
emits no `ResizeBuffers` and no pool `Recreate`; and with format 10 pending and a frame of
the new size 1024×768, `m_pixelFormat` is still 87 on return. -/
theorem C8_counterexample :
    (SimpleCapture.OnFrameArrived sampleEnv (some frame800)
      { sampleState with m_pixelFormatUpdate := some 87 }).1 = Except.ok () ∧
    (SimpleCapture.OnFrameArrived sampleEnv (some frame800)
      { sampleState with m_pixelFormatUpdate := some 87 }).2.trace.countP
        Call.isResizeBuffers = 0 ∧
    (SimpleCapture.OnFrameArrived sampleEnv (some frame800)
      { sampleState with m_pixelFormatUpdate := some 87 }).2.trace.countP
        Call.isFramePoolRecreate = 0 ∧
    (SimpleCapture.OnFrameArrived sampleEnv (some frame1024)
      { sampleState with m_pixelFormatUpdate := some 10 }).1 = Except.ok () ∧
    (SimpleCapture.OnFrameArrived sampleEnv (some frame1024)
      { sampleState with m_pixelFormatUpdate := some 10 }).2.m_pixelFormat ≠ 10 := by
  refine ⟨rfl, rfl, rfl, rfl, by decide⟩

/-- Claim C8, as amended. In a state with a live swap chain and a live frame pool, for a
frame whose content size equals `m_lastSize`: if the pending slot holds a value `f` when
`OnFrameArrived` runs, the call returns normally with an empty slot and
`m_pixelFormat = f`.  When `f` differs from the old `m_pixelFormat`, the call, after the
copy and the `Present1`, resizes the swap chain to (`m_lastSize`, `f`) and recreates the
pool with format `f`, buffer count 2 and size `m_lastSize`.  When `f` equals the old
`m_pixelFormat`, the call emits no resize and no `Recreate` and leaves swap chain and pool
as they are.  For a frame of another content size, the call leaves `f` in the slot and
`m_pixelFormat` as it was. -/
theorem C8_pending_format_applied (env : Env) (henv : env.Succeeds) (s : SimpleCapture)
    (sc : IDXGISwapChain1) (pool : Direct3D11CaptureFramePool) (fr : Direct3D11CaptureFrame)
    (f : DirectXPixelFormat)
    (hsc : s.m_swapChain = some sc) (hpool : s.m_framePool = some pool)
    (hsize : fr.ContentSize = s.m_lastSize)
    (hpending : s.m_pixelFormatUpdate = some f) :
    ∃ s1 t, SimpleCapture.OnFrameArrived env (some fr) s = (Except.ok (), s1) ∧
      s1.m_pixelFormatUpdate = none ∧ s1.m_pixelFormat = f ∧ s1.m_lastSize = s.m_lastSize ∧
      s1.trace = s.trace ++ t ∧
      (f ≠ s.m_pixelFormat →
        s1.m_swapChain =
          some { BufferCount := 2, Width := static_cast_uint32 s.m_lastSize.Width,
                 Height := static_cast_uint32 s.m_lastSize.Height,
                 Format := static_cast_DXGI_FORMAT f } ∧
        s1.m_framePool = some { PixelFormat := f, NumberOfBuffers := 2, Size := s.m_lastSize } ∧
        t.filter Call.isSurfaceCall =
          [Call.CopyResource { Width := sc.Width, Height := sc.Height, Format := sc.Format } fr,
           Call.Present1 1 0,
           Call.ResizeBuffers 2 (static_cast_uint32 s.m_lastSize.Width)
             (static_cast_uint32 s.m_lastSize.Height) (static_cast_DXGI_FORMAT f) 0,
           Call.FramePoolRecreate f 2 s.m_lastSize]) ∧
      (f = s.m_pixelFormat →
        s1.m_swapChain = s.m_swapChain ∧ s1.m_framePool = s.m_framePool ∧
        t.filter Call.isSurfaceCall =
          [Call.CopyResource { Width := sc.Width, Height := sc.Height, Format := sc.Format } fr,
           Call.Present1 1 0]) ∧
      (∀ fr0 : Direct3D11CaptureFrame,
        fr0.ContentSize.Width ≠ s.m_lastSize.Width ∨
          fr0.ContentSize.Height ≠ s.m_lastSize.Height →
        (SimpleCapture.OnFrameArrived env (some fr0) s).2.m_pixelFormatUpdate = some f ∧
        (SimpleCapture.OnFrameArrived env (some fr0) s).2.m_pixelFormat = s.m_pixelFormat) := by
  have hskip : ∀ fr0 : Direct3D11CaptureFrame,
      fr0.ContentSize.Width ≠ s.m_lastSize.Width ∨
        fr0.ContentSize.Height ≠ s.m_lastSize.Height →
      (SimpleCapture.OnFrameArrived env (some fr0) s).2.m_pixelFormatUpdate = some f ∧
      (SimpleCapture.OnFrameArrived env (some fr0) s).2.m_pixelFormat = s.m_pixelFormat :=
    fun fr0 h0 => hpending ▸ OnFrameArrived_skips_format env s fr0 h0
  by_cases hf : f = s.m_pixelFormat
  · refine ⟨_, _, OnFrameArrived_steady env henv s sc fr hsc hsize (Or.inr (hf ▸ hpending)),
      rfl, hf.symm, rfl, rfl, fun h => absurd hf h, fun _ => ⟨rfl, rfl, ?_⟩, hskip⟩
    simp [frameCalls, Call.isSurfaceCall, Call.isResizeBuffers, Call.isCopyResource,
      Call.isPresent1, Call.isFramePoolRecreate]
  · refine ⟨_, _, OnFrameArrived_updated env henv s sc pool fr f hsc hpool hsize hpending hf,
      rfl, rfl, rfl, rfl, fun _ => ⟨rfl, rfl, ?_⟩, fun h => absurd h hf, hskip⟩
    simp [frameCalls, Call.isSurfaceCall, Call.isResizeBuffers, Call.isCopyResource,
      Call.isPresent1, Call.isFramePoolRecreate]

/-- Claim C8, as amended, at the sample pipeline with format 10 pending and an 800×600
frame. -/
theorem C8_pending_format_applied_witness :
    sampleState.m_swapChain = some { BufferCount := 2, Width := 800, Height := 600, Format := 87 } ∧
    frame800.ContentSize = sampleState.m_lastSize ∧
    ∃ s1, SimpleCapture.OnFrameArrived sampleEnv (some frame800)
        { sampleState with m_pixelFormatUpdate := some 10 } = (Except.ok (), s1) ∧
      s1.m_pixelFormatUpdate = none ∧ s1.m_pixelFormat = 10 := by
  refine ⟨rfl, rfl, ?_⟩
  obtain ⟨s1, t, h⟩ := C8_pending_format_applied sampleEnv sampleEnv_succeeds
    { sampleState with m_pixelFormatUpdate := some 10 }
    { BufferCount := 2, Width := 800, Height := 600, Format := 87 }
    { PixelFormat := 87, NumberOfBuffers := 2, Size := { Width := 800, Height := 600 } }
    frame800 10 rfl rfl rfl rfl
  exact ⟨s1, h.1, h.2.1, h.2.2.1⟩

/-- Claim C9, at the failing input. Two notifications with 800×600 frames on the sample
pipeline: the run returns normally, and while the trace of the constructor holds no
`D3DCompileFromFile` and no `CreateComputeShader` call, the trace after the first
notification holds one of each and the trace after the second holds two of each: the
shader is compiled and created once per notification, not once per pipeline. -/
theorem C9_two_notifications_compile_twice :
    (notifications sampleEnv [some frame800, some frame800] sampleState).1 = Except.ok () ∧
    sampleState.trace.countP Call.isD3DCompileFromFile = 0 ∧
    sampleState.trace.countP Call.isCreateComputeShader = 0 ∧
    (notifications sampleEnv [some frame800] sampleState).2.trace.countP
      Call.isD3DCompileFromFile = 1 ∧
    (notifications sampleEnv [some frame800] sampleState).2.trace.countP
      Call.isCreateComputeShader = 1 ∧
    (notifications sampleEnv [some frame800, some frame800] sampleState).2.trace.countP
      Call.isD3DCompileFromFile = 2 ∧
    (notifications sampleEnv [some frame800, some frame800] sampleState).2.trace.countP
      Call.isCreateComputeShader = 2 := by
  have h1 := notifications_steady sampleEnv sampleEnv_succeeds [frame800] sampleState
    { BufferCount := 2, Width := 800, Height := 600, Format := 87 } rfl rfl (by decide)
  have h2 := notifications_steady sampleEnv sampleEnv_succeeds [frame800, frame800] sampleState
    { BufferCount := 2, Width := 800, Height := 600, Format := 87 } rfl rfl (by decide)
  simp only [List.map_cons, List.map_nil] at h1 h2
  rw [h1, h2]
  have c1 := frameCalls_counts sampleEnv sampleState.m_device
    { Width := 800, Height := 600, Format := 87 } [frame800]
  have c2 := frameCalls_counts sampleEnv sampleState.m_device
    { Width := 800, Height := 600, Format := 87 } [frame800, frame800]
  have c0 : sampleState.trace.countP Call.isD3DCompileFromFile = 0 ∧
      sampleState.trace.countP Call.isCreateComputeShader = 0 := by
    simp [sampleState, SimpleCapture.SimpleCapture, List.countP_cons,
      Call.isD3DCompileFromFile, Call.isCreateComputeShader]
  refine ⟨rfl, c0.1, c0.2, ?_, ?_, ?_, ?_⟩
  · simp only [List.countP_append, c0.1, c1.2.2.2.2.1, List.length_cons, List.length_nil]
  · simp only [List.countP_append, c0.2, c1.2.2.2.2.2, List.length_cons, List.length_nil]
  · simp only [List.countP_append, c0.1, c2.2.2.2.2.1, List.length_cons, List.length_nil]
  · simp only [List.countP_append, c0.2, c2.2.2.2.2.2, List.length_cons, List.length_nil]

/-- Claim C10. For a frame whose content size differs from `m_lastSize`, `OnFrameArrived`
leaves the pending pixel-format slot and `m_pixelFormat` unchanged, whatever the external
calls return (whereas `TryUpdatePixelFormat`, whenever it runs, empties the slot): the
pixel-format check is skipped.  When the handles are live and the calls succeed, the call
returns normally, its only resize is the one to the new size with the old format, and the
pool is recreated with the old `m_pixelFormat`, buffer count 2, at the new size.  And a
call of `OnFrameArrived` that changes the pending slot is one whose frame has the content
size `m_lastSize`. -/
theorem C10_size_change_skips_format_check (env : Env) (s : SimpleCapture)
    (fr : Direct3D11CaptureFrame)
    (hsize : fr.ContentSize.Width ≠ s.m_lastSize.Width ∨
      fr.ContentSize.Height ≠ s.m_lastSize.Height) :
    (SimpleCapture.OnFrameArrived env (some fr) s).2.m_pixelFormatUpdate = s.m_pixelFormatUpdate ∧
    (SimpleCapture.OnFrameArrived env (some fr) s).2.m_pixelFormat = s.m_pixelFormat ∧
    (∀ s0 : SimpleCapture, (SimpleCapture.TryUpdatePixelFormat env s0).2.m_pixelFormatUpdate = none) ∧
    (env.Succeeds → ∀ sc pool, s.m_swapChain = some sc → s.m_framePool = some pool →
      ∃ s1 t, SimpleCapture.OnFrameArrived env (some fr) s = (Except.ok (), s1) ∧
        s1.m_framePool =
          some { PixelFormat := s.m_pixelFormat, NumberOfBuffers := 2, Size := fr.ContentSize } ∧
        s1.trace = s.trace ++ t ∧
        t.filter Call.isResizeBuffers =
          [Call.ResizeBuffers 2 (static_cast_uint32 fr.ContentSize.Width)
            (static_cast_uint32 fr.ContentSize.Height)
            (static_cast_DXGI_FORMAT s.m_pixelFormat) 0] ∧
        t.filter Call.isFramePoolRecreate =
          [Call.FramePoolRecreate s.m_pixelFormat 2 fr.ContentSize]) ∧
    (∀ (frame : Option Direct3D11CaptureFrame) (s0 : SimpleCapture),
      (SimpleCapture.OnFrameArrived env frame s0).2.m_pixelFormatUpdate ≠ s0.m_pixelFormatUpdate →
      ∃ fr0, frame = some fr0 ∧ fr0.ContentSize = s0.m_lastSize) := by
  refine ⟨(OnFrameArrived_skips_format env s fr hsize).1,
    (OnFrameArrived_skips_format env s fr hsize).2,
    TryUpdatePixelFormat_empties env, ?_, ?_⟩
  · intro henv sc pool hsc hpool
    refine ⟨_, _, OnFrameArrived_resized env henv s sc pool fr hsc hpool hsize, rfl, rfl, ?_, ?_⟩
    · simp [frameCalls, Call.isResizeBuffers]
    · simp [frameCalls, Call.isFramePoolRecreate]
  · intro frame s0 hchanged
    by_contra hcon
    apply hchanged
    refine (OnFrameArrived_slot_untouched env frame s0 ?_).1
    rintro ⟨fr0, h0, hw, hh⟩
    apply hcon
    refine ⟨fr0, h0, ?_⟩
    cases hc : fr0.ContentSize
    cases hl : s0.m_lastSize
    simp_all

/-- Claim C10 at the sample pipeline with format 10 pending and a 1024×768 frame. -/
theorem C10_size_change_skips_format_check_witness :
    (frame1024.ContentSize.Width ≠ sampleState.m_lastSize.Width ∨
      frame1024.ContentSize.Height ≠ sampleState.m_lastSize.Height) ∧
    (SimpleCapture.OnFrameArrived sampleEnv (some frame1024)
      { sampleState with m_pixelFormatUpdate := some 10 }).2.m_pixelFormatUpdate = some 10 ∧
    (SimpleCapture.OnFrameArrived sampleEnv (some frame1024)
      { sampleState with m_pixelFormatUpdate := some 10 }).2.m_pixelFormat = 87 :=
  ⟨by decide,
    (C10_size_change_skips_format_check sampleEnv
      { sampleState with m_pixelFormatUpdate := some 10 } frame1024 (by decide)).1,
    (C10_size_change_skips_format_check sampleEnv
      { sampleState with m_pixelFormatUpdate := some 10 } frame1024 (by decide)).2.1⟩

end Win32CaptureSample
